import Mathlib

/-
A shallow embedding, in Lean 4, of the garbled-circuit utility
(src/garbled_circuits_utility).  Pure C++ functions become Lean
functions; the std::map state of the Garbler and Evaluator becomes
explicit association lists; C++ exceptions become Except results;
randomness (RAND_bytes, std::shuffle) becomes explicit parameters (a
tape of labels, a permutation per gate); the external OpenSSL
primitives (SHA-256, the AES-128 block permutation) are the only parts
not reimplemented bit-for-bit: they enter as an abstract CryptoModel
parameter carrying the block-cipher forward/backward maps and the PRF,
exactly at the interface the C++ calls them (crypto_utils.cpp assembles
plaintext blocks, derives the key from the PRF, and runs two-block ECB
around them; that assembly is embedded faithfully).
-/

namespace GC

/-! ## Data model (include/common.h) -/

/-- WIRE_LABEL_SIZE = SECURITY_PARAM / 8 = 16 bytes. -/
def WIRE_LABEL_SIZE : Nat := 16

/-- MAX_MESSAGE_SIZE from common.h. -/
def MAX_MESSAGE_SIZE : Nat := 65536

/-- A wire label: a 16-byte array in the source (std::array of uint8_t).
Embedded as a list of byte values; well-formed labels have length 16. -/
abbrev WireLabel := List Nat

/-- The value-initialized WireLabel{} (all-zero bytes) used as the absent
second key for unary gates. -/
def zeroLabel : WireLabel := List.replicate WIRE_LABEL_SIZE 0

/-- Gate types, with the enum values of common.h. -/
inductive GateType where
  | AND | OR | XOR | NAND | NOR | NOT | INPUT | OUTPUT
deriving DecidableEq, Repr, Inhabited

/-- The numeric value of a GateType (enum values 0..7 in common.h). -/
def gateTypeToByte : GateType → Nat
  | .AND => 0
  | .OR => 1
  | .XOR => 2
  | .NAND => 3
  | .NOR => 4
  | .NOT => 5
  | .INPUT => 6
  | .OUTPUT => 7

/-- The inverse cast used by the deserializer
(static_cast of a byte to GateType); bytes above 7 are undefined
behavior in the source, mapped to AND here (never produced by the
serializer, whose bytes are always 0..7). -/
def byteToGateType : Nat → GateType
  | 0 => .AND
  | 1 => .OR
  | 2 => .XOR
  | 3 => .NAND
  | 4 => .NOR
  | 5 => .NOT
  | 6 => .INPUT
  | 7 => .OUTPUT
  | _ => .AND

/-- gate_type_to_string from common.h. -/
def gate_type_to_string : GateType → String
  | .AND => "AND"
  | .OR => "OR"
  | .XOR => "XOR"
  | .NAND => "NAND"
  | .NOR => "NOR"
  | .NOT => "NOT"
  | .INPUT => "INPUT"
  | .OUTPUT => "OUTPUT"

/-- string_to_gate_type from common.h; none models the thrown
runtime_error for an unknown token. -/
def string_to_gate_type (s : String) : Option GateType :=
  if s = "AND" then some .AND
  else if s = "OR" then some .OR
  else if s = "XOR" then some .XOR
  else if s = "NAND" then some .NAND
  else if s = "NOR" then some .NOR
  else if s = "INV" then some .NOT
  else if s = "NOT" then some .NOT
  else if s = "INPUT" then some .INPUT
  else if s = "OUTPUT" then some .OUTPUT
  else none

/-- gate_function from common.h; none models the thrown runtime_error
for INPUT/OUTPUT. -/
def gate_function : GateType → Bool → Bool → Option Bool
  | .AND, a, b => some (a && b)
  | .OR, a, b => some (a || b)
  | .XOR, a, b => some (xor a b)
  | .NAND, a, b => some (!(a && b))
  | .NOR, a, b => some (!(a || b))
  | .NOT, a, _ => some (!a)
  | _, _, _ => none

/-- Gate from common.h: wires are C++ ints; input_wire2 = -1 marks a
unary gate. -/
structure Gate where
  output_wire : Int
  input_wire1 : Int
  input_wire2 : Int
  type : GateType
deriving DecidableEq, Repr, Inhabited

/-- Circuit from common.h. -/
structure Circuit where
  num_inputs : Int
  num_outputs : Int
  num_gates : Int
  num_wires : Int
  gates : List Gate
  input_wires : List Int
  output_wires : List Int
  input_partition : List Int
  output_partition : List Int
deriving DecidableEq, Repr, Inhabited

/-- A garbled gate: the four ciphertext rows (each 32 bytes). -/
structure GarbledGate where
  ciphertexts : List (List Nat)
deriving DecidableEq, Repr, Inhabited

/-- Decidable equality of Except results, used to state concrete
evaluations of the embedded functions. -/
instance instDecEqExcept {ε α : Type} [DecidableEq ε] [DecidableEq α] :
    DecidableEq (Except ε α) := fun x y =>
  match x, y with
  | Except.ok a, Except.ok b =>
    match decEq a b with
    | isTrue h => isTrue (congrArg Except.ok h)
    | isFalse h => isFalse (fun hh => h (Except.ok.inj hh))
  | Except.error a, Except.error b =>
    match decEq a b with
    | isTrue h => isTrue (congrArg Except.error h)
    | isFalse h => isFalse (fun hh => h (Except.error.inj hh))
  | Except.ok _, Except.error _ => isFalse (fun hh => Except.noConfusion hh)
  | Except.error _, Except.ok _ => isFalse (fun hh => Except.noConfusion hh)

/-- Association-list embedding of std::map lookup (map.find). -/
def lookupMap {α : Type} : List (Int × α) → Int → Option α
  | [], _ => none
  | (k2, v) :: rest, k => if k2 = k then some v else lookupMap rest k

/-- Association-list embedding of std::map assignment (map[k] = v). -/
def setMap {α : Type} : List (Int × α) → Int → α → List (Int × α)
  | [], k, v => [(k, v)]
  | (k2, v2) :: rest, k, v =>
    if k2 = k then (k, v) :: rest else (k2, v2) :: setMap rest k v

/-- GarbledCircuit from common.h: the circuit, the garbled gates, the
wire-id-indexed label pairs and the output decoding map. -/
structure GarbledCircuit where
  circuit : Circuit
  garbled_gates : List GarbledGate
  input_labels : List (Int × (WireLabel × WireLabel))
  output_mapping : List (Int × WireLabel)
deriving DecidableEq, Repr, Inhabited

/-! ## Cryptographic primitives (crypto_utils.cpp)

The OpenSSL calls (SHA-256 and the AES-128-ECB block permutation) are
abstracted as a CryptoModel; everything around them — plaintext
assembly, key derivation, two-block ECB chaining, the (absent) padding
check — follows crypto_utils.cpp line by line. -/

/-- The external cryptographic primitives.  aesEncBlock/aesDecBlock map
a 16-byte key and a 16-byte block to a block (AES-128 in the source);
prf models PRF(key1, key2, gate_id) = sha256(key1 ++ key2 ++ be32
gate_id), a deterministic 32-byte function of its three arguments. -/
structure CryptoModel where
  aesEncBlock : List Nat → List Nat → List Nat
  aesDecBlock : List Nat → List Nat → List Nat
  prf : WireLabel → WireLabel → Nat → List Nat

/-- The block loop of ECB mode, structurally recursive on a fuel bound
(each step consumes at least one byte, so a fuel of the input length
suffices and the fuel-zero case is unreachable). -/
def aesEcbGo (f : List Nat → List Nat) : Nat → List Nat → List Nat
  | _, [] => []
  | 0, _ => []
  | fuel + 1, b :: rest => f ((b :: rest).take 16) ++ aesEcbGo f fuel ((b :: rest).drop 16)

/-- ECB mode over 16-byte blocks (EVP encrypt/decrypt with padding
disabled processes the data block by block). -/
def aes_ecb (f : List Nat → List Nat) (l : List Nat) : List Nat :=
  aesEcbGo f l.length l

/-- CryptoUtils::aes_encrypt (ECB, padding disabled). -/
def aes_encrypt (M : CryptoModel) (plaintext : List Nat) (key : List Nat) : List Nat :=
  aes_ecb (M.aesEncBlock key) plaintext

/-- CryptoUtils::aes_decrypt (ECB, padding disabled). -/
def aes_decrypt (M : CryptoModel) (ciphertext : List Nat) (key : List Nat) : List Nat :=
  aes_ecb (M.aesDecBlock key) ciphertext

/-- CryptoUtils::encrypt_label: plaintext = output_label ++ 16 zero
padding bytes, key = first 16 bytes of PRF(key1, key2, gate_id),
ciphertext = AES-ECB of the two blocks. -/
def encrypt_label (M : CryptoModel) (output_label k1 k2 : WireLabel) (gate_id : Nat) : List Nat :=
  let plaintext := output_label ++ List.replicate 16 0
  let enc_key := (M.prf k1 k2 gate_id).take WIRE_LABEL_SIZE
  aes_encrypt M plaintext enc_key

/-- CryptoUtils::decrypt_label: derives the key, decrypts, and fails
only when fewer than WIRE_LABEL_SIZE plaintext bytes were recovered.
Note that the 16 padding bytes are never inspected here. -/
def decrypt_label (M : CryptoModel) (ciphertext : List Nat) (k1 k2 : WireLabel) (gate_id : Nat) :
    Except String WireLabel :=
  let dec_key := (M.prf k1 k2 gate_id).take WIRE_LABEL_SIZE
  let plaintext := aes_decrypt M ciphertext dec_key
  if plaintext.length < WIRE_LABEL_SIZE then
    Except.error (r"Decryption failed: insufficient data")
  else
    Except.ok (plaintext.take WIRE_LABEL_SIZE)

/-- CryptoUtils::is_valid_decryption: the 16 bytes after the label must
all be zero.  (Defined in crypto_utils.cpp but never called.) -/
def is_valid_decryption (decrypted_data : List Nat) : Bool :=
  if decrypted_data.length < WIRE_LABEL_SIZE + 16 then false
  else (List.range 16).all (fun i => decrypted_data.getD (WIRE_LABEL_SIZE + i) 0 == 0)

/-- CryptoUtils::labels_equal: byte-wise equality of two 16-byte labels. -/
def labels_equal (a b : WireLabel) : Bool := a == b

/-! ## Garbling engine (garbled_circuit.cpp, class Garbler)

The Garbler's mutable wire_labels member becomes an explicit
association list; RAND_bytes becomes a tape of labels consumed at an
explicit counter; std::shuffle becomes a permutation parameter per
gate. -/

/-- perm_bit from garbled_circuit.h: lbl[WIRE_LABEL_SIZE - 1] AND 0x01. -/
def perm_bit (lbl : WireLabel) : Nat :=
  lbl.getD (WIRE_LABEL_SIZE - 1) 0 &&& 0x01

/-- The wire_labels member of the Garbler: wire id to (label0, label1). -/
abbrev LabelMap := List (Int × (WireLabel × WireLabel))

/-- The point-and-permute masking of generate_wire_labels: clear the
low bit of the last byte of label0 and set it on label1. -/
def maskPandpPair (use_pandp : Bool) (l0 l1 : WireLabel) : WireLabel × WireLabel :=
  if use_pandp then
    (l0.set (WIRE_LABEL_SIZE - 1) (l0.getD (WIRE_LABEL_SIZE - 1) 0 &&& 0xFE),
     l1.set (WIRE_LABEL_SIZE - 1) (l1.getD (WIRE_LABEL_SIZE - 1) 0 ||| 0x01))
  else (l0, l1)

/-- First loop of generate_wire_labels: a fresh pair per input wire. -/
def genInputWireLabels (use_pandp : Bool) (tape : Nat → WireLabel) :
    List Int → LabelMap → Nat → LabelMap × Nat
  | [], m, ctr => (m, ctr)
  | w :: ws, m, ctr =>
    let p := maskPandpPair use_pandp (tape ctr) (tape (ctr + 1))
    genInputWireLabels use_pandp tape ws (setMap m w p) (ctr + 2)

/-- Second loop of generate_wire_labels: a fresh pair per gate output
wire not already present. -/
def genGateWireLabels (use_pandp : Bool) (tape : Nat → WireLabel) :
    List Gate → LabelMap → Nat → LabelMap × Nat
  | [], m, ctr => (m, ctr)
  | g :: gs, m, ctr =>
    match lookupMap m g.output_wire with
    | some _ => genGateWireLabels use_pandp tape gs m ctr
    | none =>
      let p := maskPandpPair use_pandp (tape ctr) (tape (ctr + 1))
      genGateWireLabels use_pandp tape gs (setMap m g.output_wire p) (ctr + 2)

/-- Garbler::generate_wire_labels: clears the table, then labels input
wires and gate output wires in order. -/
def generate_wire_labels (use_pandp : Bool) (tape : Nat → WireLabel) (c : Circuit)
    (ctr : Nat) : LabelMap × Nat :=
  let s1 := genInputWireLabels use_pandp tape c.input_wires [] ctr
  genGateWireLabels use_pandp tape c.gates s1.1 s1.2

/-- std::map operator[] on wire_labels: the stored pair, or a
value-initialized (all-zero) pair when the wire is absent. -/
def getWirePair (wire_labels : LabelMap) (w : Int) : WireLabel × WireLabel :=
  (lookupMap wire_labels w).getD (zeroLabel, zeroLabel)

/-- Garbler::permute_garbled_table with the random shuffle made an
explicit permutation of the four row indices. -/
def permute_table (σ : Fin 4 → Fin 4) (cts : List (List Nat)) : List (List Nat) :=
  (List.finRange 4).map (fun j => cts.getD (σ j : Nat) [])

/-- Lift the gate_function Option to the Except used by garbling. -/
def gateFnE (t : GateType) (a b : Bool) : Except String Bool :=
  match gate_function t a b with
  | some v => Except.ok v
  | none => Except.error (r"Invalid gate type for evaluation")

/-- Garbler::generate_garbled_table: encrypt the four truth-table
entries, then order rows by the permutation bits (point-and-permute)
or shuffle them (legacy). -/
def generate_garbled_table (use_pandp : Bool) (M : CryptoModel) (σ : Fin 4 → Fin 4)
    (gate : Gate) (gate_id : Nat)
    (out_label0 out_label1 in1_label0 in1_label1 in2_label0 in2_label1 : WireLabel) :
    Except String GarbledGate := do
  let result_00 ← gateFnE gate.type false false
  let ct0 := encrypt_label M (if result_00 then out_label1 else out_label0)
      in1_label0 in2_label0 gate_id
  let result_01 ← gateFnE gate.type false true
  let ct1 := encrypt_label M (if result_01 then out_label1 else out_label0)
      in1_label0 in2_label1 gate_id
  let result_10 ← gateFnE gate.type true false
  let ct2 := encrypt_label M (if result_10 then out_label1 else out_label0)
      in1_label1 in2_label0 gate_id
  let result_11 ← gateFnE gate.type true true
  let ct3 := encrypt_label M (if result_11 then out_label1 else out_label0)
      in1_label1 in2_label1 gate_id
  if use_pandp then
    let a0 := perm_bit in1_label0
    let a1 := perm_bit in1_label1
    let b0 := perm_bit in2_label0
    let b1 := perm_bit in2_label1
    let ordered :=
      ((((List.replicate 4 ([] : List Nat)).set (a0 * 2 + b0) ct0).set
        (a0 * 2 + b1) ct1).set (a1 * 2 + b0) ct2).set (a1 * 2 + b1) ct3
    pure ⟨ordered⟩
  else
    pure ⟨permute_table σ [ct0, ct1, ct2, ct3]⟩

/-- Garbler::garble_and_gate. -/
def garble_and_gate (use_pandp : Bool) (M : CryptoModel) (σ : Fin 4 → Fin 4)
    (wire_labels : LabelMap) (gate : Gate) (gate_id : Nat) : Except String GarbledGate :=
  let out := getWirePair wire_labels gate.output_wire
  let in1 := getWirePair wire_labels gate.input_wire1
  let in2 := getWirePair wire_labels gate.input_wire2
  generate_garbled_table use_pandp M σ gate gate_id out.1 out.2 in1.1 in1.2 in2.1 in2.2

/-- Garbler::garble_or_gate. -/
def garble_or_gate (use_pandp : Bool) (M : CryptoModel) (σ : Fin 4 → Fin 4)
    (wire_labels : LabelMap) (gate : Gate) (gate_id : Nat) : Except String GarbledGate :=
  let out := getWirePair wire_labels gate.output_wire
  let in1 := getWirePair wire_labels gate.input_wire1
  let in2 := getWirePair wire_labels gate.input_wire2
  generate_garbled_table use_pandp M σ gate gate_id out.1 out.2 in1.1 in1.2 in2.1 in2.2

/-- Garbler::garble_xor_gate. -/
def garble_xor_gate (use_pandp : Bool) (M : CryptoModel) (σ : Fin 4 → Fin 4)
    (wire_labels : LabelMap) (gate : Gate) (gate_id : Nat) : Except String GarbledGate :=
  let out := getWirePair wire_labels gate.output_wire
  let in1 := getWirePair wire_labels gate.input_wire1
  let in2 := getWirePair wire_labels gate.input_wire2
  generate_garbled_table use_pandp M σ gate gate_id out.1 out.2 in1.1 in1.2 in2.1 in2.2

/-- Garbler::garble_nand_gate. -/
def garble_nand_gate (use_pandp : Bool) (M : CryptoModel) (σ : Fin 4 → Fin 4)
    (wire_labels : LabelMap) (gate : Gate) (gate_id : Nat) : Except String GarbledGate :=
  let out := getWirePair wire_labels gate.output_wire
  let in1 := getWirePair wire_labels gate.input_wire1
  let in2 := getWirePair wire_labels gate.input_wire2
  generate_garbled_table use_pandp M σ gate gate_id out.1 out.2 in1.1 in1.2 in2.1 in2.2

/-- Garbler::garble_not_gate: two genuine rows keyed by the input
labels with an all-zero second key, two filler rows from four fresh
random labels; the legacy path then shuffles all four.  Returns the
advanced tape counter. -/
def garble_not_gate (use_pandp : Bool) (M : CryptoModel) (tape : Nat → WireLabel)
    (σ : Fin 4 → Fin 4) (wire_labels : LabelMap) (gate : Gate) (gate_id : Nat)
    (ctr : Nat) : GarbledGate × Nat :=
  let out := getWirePair wire_labels gate.output_wire
  let in1 := getWirePair wire_labels gate.input_wire1
  let ct0 := encrypt_label M out.2 in1.1 zeroLabel gate_id
  let ct1 := encrypt_label M out.1 in1.2 zeroLabel gate_id
  let ct2 := encrypt_label M (tape ctr) (tape (ctr + 1)) zeroLabel gate_id
  let ct3 := encrypt_label M (tape (ctr + 2)) (tape (ctr + 3)) zeroLabel gate_id
  let table := [ct0, ct1, ct2, ct3]
  (⟨if use_pandp then table else permute_table σ table⟩, ctr + 4)

/-- Garbler::garble_gate: dispatch on the gate type; the default case
raises GarblerException("Unsupported gate type: ..."). -/
def garble_gate (use_pandp : Bool) (M : CryptoModel) (tape : Nat → WireLabel)
    (σ : Fin 4 → Fin 4) (wire_labels : LabelMap) (gate : Gate) (gate_id : Nat)
    (ctr : Nat) : Except String GarbledGate × Nat :=
  match gate.type with
  | .AND => (garble_and_gate use_pandp M σ wire_labels gate gate_id, ctr)
  | .OR => (garble_or_gate use_pandp M σ wire_labels gate gate_id, ctr)
  | .XOR => (garble_xor_gate use_pandp M σ wire_labels gate gate_id, ctr)
  | .NAND => (garble_nand_gate use_pandp M σ wire_labels gate gate_id, ctr)
  | .NOT =>
    let r := garble_not_gate use_pandp M tape σ wire_labels gate gate_id ctr
    (Except.ok r.1, r.2)
  | t => (Except.error (r"Unsupported gate type: " ++ gate_type_to_string t), ctr)

/-- The garbling loop of garble_circuit: gate i is garbled with
gate_id i. -/
def garbleGatesLoop (use_pandp : Bool) (M : CryptoModel) (tape : Nat → WireLabel)
    (perms : Nat → Fin 4 → Fin 4) (wire_labels : LabelMap) :
    List Gate → Nat → Nat → Except String (List GarbledGate)
  | [], _, _ => Except.ok []
  | g :: gs, i, ctr =>
    match garble_gate use_pandp M tape (perms i) wire_labels g i ctr with
    | (Except.error e, _) => Except.error e
    | (Except.ok gg, ctr2) => do
      let rest ← garbleGatesLoop use_pandp M tape perms wire_labels gs (i + 1) ctr2
      pure (gg :: rest)

/-- The output-mapping loop of garble_circuit: store label0 for every
output wire present in the label table. -/
def build_output_mapping (wire_labels : LabelMap) :
    List Int → List (Int × WireLabel) → List (Int × WireLabel)
  | [], acc => acc
  | w :: ws, acc =>
    match lookupMap wire_labels w with
    | some p => build_output_mapping wire_labels ws (setMap acc w p.1)
    | none => build_output_mapping wire_labels ws acc

/-- Garbler::garble_circuit: generate labels, garble every gate in
order, record the output decoding map, and keep the label table in the
garbled circuit. -/
def garble_circuit (use_pandp : Bool) (M : CryptoModel) (tape : Nat → WireLabel)
    (perms : Nat → Fin 4 → Fin 4) (c : Circuit) : Except String GarbledCircuit := do
  let s := generate_wire_labels use_pandp tape c 0
  let wire_labels := s.1
  let ggs ← garbleGatesLoop use_pandp M tape perms wire_labels c.gates 0 s.2
  let om := build_output_mapping wire_labels c.output_wires []
  pure ⟨c, ggs, wire_labels, om⟩

/-- The per-wire loop of Garbler::encode_inputs. -/
def encodeLoop (input_labels : LabelMap) :
    List Bool → List Int → Except String (List WireLabel)
  | [], _ => Except.ok []
  | _, [] => Except.ok []
  | bit :: bits, w :: ws =>
    match lookupMap input_labels w with
    | none => Except.error (r"Wire not found: " ++ toString w)
    | some p => do
      let rest ← encodeLoop input_labels bits ws
      pure ((if bit then p.2 else p.1) :: rest)

/-- Garbler::encode_inputs: label0 for bit 0, label1 for bit 1, per
requested wire. -/
def encode_inputs (gc : GarbledCircuit) (inputs : List Bool) (wire_indices : List Int) :
    Except String (List WireLabel) :=
  if inputs.length ≠ wire_indices.length then Except.error (r"Input size mismatch")
  else encodeLoop gc.input_labels inputs wire_indices

/-- The per-wire loop of Garbler::decode_outputs: runs while both the
label list and the output-wire list have elements. -/
def decodeLoop (output_mapping : List (Int × WireLabel)) :
    List WireLabel → List Int → Except String (List Bool)
  | [], _ => Except.ok []
  | _, [] => Except.ok []
  | l :: ls, w :: ws =>
    match lookupMap output_mapping w with
    | none => Except.error (r"Output wire mapping not found")
    | some l0 =>
      match decodeLoop output_mapping ls ws with
      | Except.error e => Except.error e
      | Except.ok rest => Except.ok ((!labels_equal l l0) :: rest)

/-- Garbler::decode_outputs: compare each received label byte-wise with
the stored label0; inequality decodes as bit 1. -/
def decode_outputs (gc : GarbledCircuit) (output_labels : List WireLabel) :
    Except String (List Bool) :=
  decodeLoop gc.output_mapping output_labels gc.circuit.output_wires

/-! ## Evaluation engine (garbled_circuit.cpp, class Evaluator) -/

/-- The legacy trial-decryption loop of Evaluator::evaluate_gate: the
first row whose decryption does not throw wins. -/
def tryRowsBinary (M : CryptoModel) (k1 k2 : WireLabel) (gate_id : Nat) :
    List (List Nat) → Except String WireLabel
  | [] => Except.error (r"Failed to decrypt any ciphertext in garbled gate " ++ toString gate_id)
  | ct :: rest =>
    match decrypt_label M ct k1 k2 gate_id with
    | Except.ok r => Except.ok r
    | Except.error _ => tryRowsBinary M k1 k2 gate_id rest

/-- Evaluator::evaluate_gate: point-and-permute selects row
perm_bit(k1)*2 + perm_bit(k2) with a single decryption; legacy tries
the four rows in order. -/
def evaluate_gate (use_pandp : Bool) (M : CryptoModel) (gg : GarbledGate)
    (input1_label input2_label : WireLabel) (gate_id : Nat) : Except String WireLabel :=
  if use_pandp then
    let idx := perm_bit input1_label * 2 + perm_bit input2_label
    match decrypt_label M (gg.ciphertexts.getD idx []) input1_label input2_label gate_id with
    | Except.ok r => Except.ok r
    | Except.error e => Except.error (r"Point-and-permute decryption failed: " ++ e)
  else
    tryRowsBinary M input1_label input2_label gate_id gg.ciphertexts

/-- The legacy trial-decryption loop of Evaluator::evaluate_unary_gate. -/
def tryRowsUnary (M : CryptoModel) (k1 : WireLabel) (gate_id : Nat) :
    List (List Nat) → Except String WireLabel
  | [] => Except.error (r"Failed to decrypt unary gate " ++ toString gate_id)
  | ct :: rest =>
    match decrypt_label M ct k1 zeroLabel gate_id with
    | Except.ok r => Except.ok r
    | Except.error _ => tryRowsUnary M k1 gate_id rest

/-- Evaluator::evaluate_unary_gate: point-and-permute selects row
perm_bit(k1); legacy tries the four rows in order. -/
def evaluate_unary_gate (use_pandp : Bool) (M : CryptoModel) (gg : GarbledGate)
    (input_label : WireLabel) (gate_id : Nat) : Except String WireLabel :=
  if use_pandp then
    let idx := perm_bit input_label
    match decrypt_label M (gg.ciphertexts.getD idx []) input_label zeroLabel gate_id with
    | Except.ok r => Except.ok r
    | Except.error e => Except.error (r"Point-and-permute (unary) decryption failed: " ++ e)
  else
    tryRowsUnary M input_label gate_id gg.ciphertexts

/-- The input-assignment loop of evaluate_circuit:
wire_values[input_wires[i]] = input_labels[i]. -/
def setInputWireValues : List Int → List WireLabel → List (Int × WireLabel) →
    List (Int × WireLabel)
  | [], _, wv => wv
  | _, [], wv => wv
  | w :: ws, l :: ls, wv => setInputWireValues ws ls (setMap wv w l)

/-- The gate loop of Evaluator::evaluate_circuit, gate i paired with
garbled gate i. -/
def evalGatesLoop (use_pandp : Bool) (M : CryptoModel) (ggs : List GarbledGate) :
    List Gate → Nat → List (Int × WireLabel) → Except String (List (Int × WireLabel))
  | [], _, wv => Except.ok wv
  | g :: gs, i, wv =>
    if g.input_wire2 = -1 then
      match lookupMap wv g.input_wire1 with
      | none => Except.error (r"Input wire not found: " ++ toString g.input_wire1)
      | some k1 => do
        let r ← evaluate_unary_gate use_pandp M (ggs.getD i default) k1 i
        evalGatesLoop use_pandp M ggs gs (i + 1) (setMap wv g.output_wire r)
    else
      match lookupMap wv g.input_wire1, lookupMap wv g.input_wire2 with
      | some k1, some k2 => do
        let r ← evaluate_gate use_pandp M (ggs.getD i default) k1 k2 i
        evalGatesLoop use_pandp M ggs gs (i + 1) (setMap wv g.output_wire r)
      | _, _ => Except.error (r"Input wires not found for gate")

/-- The output-collection loop of evaluate_circuit. -/
def collectOutputs (wv : List (Int × WireLabel)) : List Int → Except String (List WireLabel)
  | [] => Except.ok []
  | w :: ws =>
    match lookupMap wv w with
    | none => Except.error (r"Output wire not found: " ++ toString w)
    | some l => do
      let rest ← collectOutputs wv ws
      pure (l :: rest)

/-- Evaluator::evaluate_circuit: check the input-label count, assign
input wires, evaluate every gate in order, collect the output labels. -/
def evaluate_circuit (use_pandp : Bool) (M : CryptoModel) (gc : GarbledCircuit)
    (input_labels : List WireLabel) : Except String (List WireLabel) :=
  if input_labels.length ≠ gc.circuit.input_wires.length then
    Except.error (r"Input label count mismatch")
  else do
    let wv := setInputWireValues gc.circuit.input_wires input_labels []
    let wv2 ← evalGatesLoop use_pandp M gc.garbled_gates gc.circuit.gates 0 wv
    collectOutputs wv2 gc.circuit.output_wires

/-! ## Plaintext reference evaluation (CircuitUtils::evaluate_plaintext) -/

/-- The input-assignment loop of evaluate_plaintext. -/
def setInputBoolValues : List Int → List Bool → List (Int × Bool) → List (Int × Bool)
  | [], _, wv => wv
  | _, [], wv => wv
  | w :: ws, b :: bs, wv => setInputBoolValues ws bs (setMap wv w b)

/-- The gate loop of evaluate_plaintext; absent wires read as false
(std::map operator[] value-initializes). -/
def plaintextGatesLoop : List Gate → List (Int × Bool) → Except String (List (Int × Bool))
  | [], wv => Except.ok wv
  | g :: gs, wv =>
    if g.input_wire2 = -1 then do
      let b1 := (lookupMap wv g.input_wire1).getD false
      let r ← gateFnE g.type b1 false
      plaintextGatesLoop gs (setMap wv g.output_wire r)
    else do
      let b1 := (lookupMap wv g.input_wire1).getD false
      let b2 := (lookupMap wv g.input_wire2).getD false
      let r ← gateFnE g.type b1 b2
      plaintextGatesLoop gs (setMap wv g.output_wire r)

/-- CircuitUtils::evaluate_plaintext. -/
def evaluate_plaintext (c : Circuit) (inputs : List Bool) : Except String (List Bool) :=
  if (inputs.length : Int) ≠ c.num_inputs then Except.error (r"Input size mismatch")
  else do
    let wv := setInputBoolValues c.input_wires inputs []
    let wv2 ← plaintextGatesLoop c.gates wv
    pure (c.output_wires.map (fun w => (lookupMap wv2 w).getD false))

/-! ## Wire serialization (socket_utils.cpp, ProtocolManager)

C++ ints are serialized as four big-endian bytes of their two's
complement bit pattern (the source shifts and masks the int; for
values in the int range this produces exactly the bytes below). -/

/-- The four big-endian bytes of a 32-bit value
(push_back of (x shifted right by 24, 16, 8, 0) AND 0xFF). -/
def be32ofNat (n : Nat) : List Nat :=
  [(n >>> 24) &&& 0xFF, (n >>> 16) &&& 0xFF, (n >>> 8) &&& 0xFF, n &&& 0xFF]

/-- The two's complement 32-bit pattern of a C++ int. -/
def intToU32 (i : Int) : Nat := (i % 4294967296).toNat

/-- Reinterpret a 32-bit pattern as a C++ int (as the deserializer's
shift-or into an int does). -/
def u32ToInt (u : Nat) : Int :=
  if u < 2147483648 then (u : Int) else (u : Int) - 4294967296

/-- Big-endian bytes of a C++ int field. -/
def be32ofInt (i : Int) : List Nat := be32ofNat (intToU32 i)

/-- The deserializer's byte recombination:
(b0 shifted left 24) OR (b1 shifted left 16) OR (b2 shifted left 8) OR b3. -/
def decode4 (b0 b1 b2 b3 : Nat) : Nat :=
  ((b0 <<< 24 ||| b1 <<< 16) ||| b2 <<< 8) ||| b3

/-- The per-gate block of ProtocolManager::serialize_garbled_circuit:
input_wire1, input_wire2, output_wire as big-endian ints, then the
gate-type byte. -/
def serGate (g : Gate) : List Nat :=
  be32ofInt g.input_wire1 ++ be32ofInt g.input_wire2 ++
    be32ofInt g.output_wire ++ [gateTypeToByte g.type]

/-- ProtocolManager::serialize_garbled_circuit: counts, input wires,
output wires, gates, then the four ciphertext rows of every garbled
gate.  num_wires and the partitions are not written. -/
def serialize_garbled_circuit (gc : GarbledCircuit) : List Nat :=
  be32ofInt gc.circuit.num_gates ++ be32ofInt gc.circuit.num_inputs ++
    be32ofInt gc.circuit.num_outputs ++
    (gc.circuit.input_wires.map be32ofInt).flatten ++
    (gc.circuit.output_wires.map be32ofInt).flatten ++
    (gc.circuit.gates.map serGate).flatten ++
    (gc.garbled_gates.map (fun gg => gg.ciphertexts.flatten)).flatten

/-- The wire-reading loops of deserialize_garbled_circuit: n four-byte
big-endian values (offset + 4 > size throws). -/
def readU32s (msg : String) : Nat → List Nat → Except String (List Nat × List Nat)
  | 0, data => Except.ok ([], data)
  | n + 1, b0 :: b1 :: b2 :: b3 :: rest => do
    let s ← readU32s msg n rest
    pure (decode4 b0 b1 b2 b3 :: s.1, s.2)
  | _ + 1, _ => Except.error msg

/-- The gate-reading loop of deserialize_garbled_circuit: 13 bytes per
gate (two input wires, output wire, type byte), gate constructed as
Gate(output, input1, input2, type). -/
def readGates : Nat → List Nat → Except String (List Gate × List Nat)
  | 0, data => Except.ok ([], data)
  | n + 1, a0 :: a1 :: a2 :: a3 :: b0 :: b1 :: b2 :: b3 :: c0 :: c1 :: c2 :: c3 :: t :: rest => do
    let in1 := u32ToInt (decode4 a0 a1 a2 a3)
    let in2 := u32ToInt (decode4 b0 b1 b2 b3)
    let out := u32ToInt (decode4 c0 c1 c2 c3)
    let s ← readGates n rest
    pure (⟨out, in1, in2, byteToGateType t⟩ :: s.1, s.2)
  | _ + 1, _ => Except.error (r"Invalid circuit data: gates")

/-- One garbled gate's rows: four 32-byte ciphertexts. -/
def readRows : Nat → List Nat → Except String (List (List Nat) × List Nat)
  | 0, data => Except.ok ([], data)
  | n + 1, data =>
    if data.length < WIRE_LABEL_SIZE + 16 then
      Except.error (r"Invalid circuit data: garbled gates")
    else do
      let s ← readRows n (data.drop (WIRE_LABEL_SIZE + 16))
      pure (data.take (WIRE_LABEL_SIZE + 16) :: s.1, s.2)

/-- The garbled-gate-reading loop of deserialize_garbled_circuit. -/
def readGarbledGates : Nat → List Nat → Except String (List GarbledGate × List Nat)
  | 0, data => Except.ok ([], data)
  | n + 1, data => do
    let r ← readRows 4 data
    let s ← readGarbledGates n r.2
    pure (⟨r.1⟩ :: s.1, s.2)

/-- ProtocolManager::deserialize_garbled_circuit.  The fields that the
legacy format does not carry keep their default-constructed values:
num_wires = 0, empty partitions, empty label tables. -/
def deserialize_garbled_circuit (data : List Nat) : Except String GarbledCircuit :=
  if data.length < 12 then Except.error (r"Invalid garbled circuit data")
  else
    match data with
    | g0 :: g1 :: g2 :: g3 :: i0 :: i1 :: i2 :: i3 :: o0 :: o1 :: o2 :: o3 :: rest => do
      let num_gates := decode4 g0 g1 g2 g3
      let num_inputs := decode4 i0 i1 i2 i3
      let num_outputs := decode4 o0 o1 o2 o3
      let sIn ← readU32s (r"Invalid circuit data: input wires") num_inputs rest
      let sOut ← readU32s (r"Invalid circuit data: output wires") num_outputs sIn.2
      let sGates ← readGates num_gates sOut.2
      let sGG ← readGarbledGates num_gates sGates.2
      pure ⟨{ num_inputs := u32ToInt num_inputs, num_outputs := u32ToInt num_outputs,
              num_gates := u32ToInt num_gates, num_wires := 0,
              gates := sGates.1,
              input_wires := sIn.1.map u32ToInt, output_wires := sOut.1.map u32ToInt,
              input_partition := [], output_partition := [] },
            sGG.1, [], []⟩
    | _ => Except.error (r"Invalid garbled circuit data")

/-! ## Framed message reception (SocketUtils::receive_message) -/

/-- The errors receive_message can raise: a closed/short stream
(NetworkException from receive_all) or an oversized declared payload
(NetworkException "Message size too large"). -/
inductive NetErr where
  | closed
  | tooLarge (size : Nat)
deriving DecidableEq, Repr

/-- A framed protocol message: the type byte and the payload. -/
structure NetMessage where
  type : Nat
  data : List Nat
deriving DecidableEq, Repr

/-- SocketUtils::receive_message over a byte stream: read the 5-byte
header, recombine the big-endian size, reject sizes above
MAX_MESSAGE_SIZE before any payload byte is read, then read the
payload.  Returns the message and the unconsumed stream. -/
def receive_message (stream : List Nat) : Except NetErr (NetMessage × List Nat) :=
  match stream with
  | t :: b1 :: b2 :: b3 :: b4 :: rest =>
    let size := decode4 b1 b2 b3 b4
    if size > 0 then
      if size > MAX_MESSAGE_SIZE then Except.error (NetErr.tooLarge size)
      else if rest.length < size then Except.error NetErr.closed
      else Except.ok (⟨t, rest.take size⟩, rest.drop size)
    else Except.ok (⟨t, []⟩, rest)
  | _ => Except.error NetErr.closed

/-! ## OT subprotocol (ot_handler.cpp)

OTHandler::send_ot loops SimpleOT::send_wire_label_ot over the pairs;
that routine writes label0 then label1 of every pair to the socket.
The byte stream written to the transport is modeled directly.
OTHandler::receive_ot loops SimpleOT::receive_wire_label_ot, which
reads both labels and locally keeps the chosen one. -/

/-- SocketUtils::send_wire_label: the 16 label bytes. -/
def send_wire_label (label : WireLabel) : List Nat := label

/-- SimpleOT::send_wire_label_ot: sends label0 then label1. -/
def send_wire_label_ot (label0 label1 : WireLabel) : List Nat :=
  send_wire_label label0 ++ send_wire_label label1

/-- OTHandler::send_ot: the transport bytes produced for a list of
label pairs. -/
def send_ot (pairs : List (WireLabel × WireLabel)) : List Nat :=
  (pairs.map (fun p => send_wire_label_ot p.1 p.2)).flatten

/-- SocketUtils::receive_wire_label: read 16 bytes. -/
def receive_wire_label (stream : List Nat) : Except String (WireLabel × List Nat) :=
  if stream.length < WIRE_LABEL_SIZE then Except.error (r"Connection closed by peer")
  else Except.ok (stream.take WIRE_LABEL_SIZE, stream.drop WIRE_LABEL_SIZE)

/-- SimpleOT::receive_wire_label_ot: receive both labels, return the
chosen one. -/
def receive_wire_label_ot (choice : Bool) (stream : List Nat) :
    Except String (WireLabel × List Nat) := do
  let s0 ← receive_wire_label stream
  let s1 ← receive_wire_label s0.2
  pure (if choice then s1.1 else s0.1, s1.2)

/-- OTHandler::receive_ot: one received label per choice bit. -/
def receive_ot : List Bool → List Nat → Except String (List WireLabel × List Nat)
  | [], stream => Except.ok ([], stream)
  | c :: cs, stream => do
    let s1 ← receive_wire_label_ot c stream
    let s2 ← receive_ot cs s1.2
    pure (s1.1 :: s2.1, s2.2)

/-! ## Bristol parser (garbled_circuit.cpp, GarbledCircuitManager)

The istream is modeled as the list of its lines.  The line-level
string operations (trimming, whitespace tokenization, int extraction)
are implemented structurally over the character list of each line,
with the semantics of the C++ stream operations they embed. -/

/-- The whitespace set of trim_string and of istream extraction
(space, tab, newline, carriage return). -/
def isWsChar (c : Char) : Bool :=
  c = ' ' || c = '\t' || c = '\n' || c = '\r'

/-- Strip leading and trailing whitespace from a character list. -/
def trimChars (l : List Char) : List Char :=
  ((l.dropWhile isWsChar).reverse.dropWhile isWsChar).reverse

/-- GarbledCircuitManager::trim_string. -/
def trim_string (s : String) : String := ⟨trimChars s.data⟩

/-- Whitespace tokenization (istream extraction skips whitespace
between reads); the accumulator holds the current token reversed. -/
def tokensAux : List Char → List Char → List String
  | [], acc => if acc.isEmpty then [] else [⟨acc.reverse⟩]
  | c :: cs, acc =>
    if isWsChar c then
      if acc.isEmpty then tokensAux cs [] else ⟨acc.reverse⟩ :: tokensAux cs []
    else tokensAux cs (c :: acc)

/-- The whitespace-separated tokens of a line. -/
def tokensOf (s : String) : List String := tokensAux s.data []

/-- Drop everything from the first hash on, then trim (the trailing
comment handling of next_content_line). -/
def stripAfterHash (t : String) : String :=
  ⟨trimChars (t.data.takeWhile (fun c => c ≠ '#'))⟩

/-- The next_content_line lambda of parse_bristol_stream: skip blank
and comment lines, strip trailing comments. -/
def nextContentLine : List String → Option (String × List String)
  | [] => none
  | line :: rest =>
    let t := trim_string line
    if t.data.isEmpty then nextContentLine rest
    else if t.data.headD ' ' = '#' then nextContentLine rest
    else
      let t2 := stripAfterHash t
      if t2.data.isEmpty then nextContentLine rest
      else some (t2, rest)

/-- Digit-list to number accumulation; none on a non-digit. -/
def natOfDigitsGo : List Char → Nat → Option Nat
  | [], acc => some acc
  | c :: cs, acc =>
    if c.isDigit then natOfDigitsGo cs (acc * 10 + (c.toNat - 48)) else none

/-- Int extraction from one token (istream operator-read of an int:
an optional sign followed by digits). -/
def tokToInt (t : String) : Option Int :=
  match t.data with
  | [] => none
  | '-' :: rest =>
    if rest.isEmpty then none
    else (natOfDigitsGo rest 0).map (fun n => -(n : Int))
  | '+' :: rest =>
    if rest.isEmpty then none
    else (natOfDigitsGo rest 0).map (fun n => (n : Int))
  | l => (natOfDigitsGo l 0).map (fun n => (n : Int))

/-- Reading ints from a stream until extraction fails
(while (stream >> count)). -/
def readIntsGreedy : List String → List Int
  | [] => []
  | t :: ts =>
    match tokToInt t with
    | some v => v :: readIntsGreedy ts
    | none => []

/-- Two leading int reads (header and gate-arity parsing). -/
def read2Ints (toks : List String) : Option (Int × Int) :=
  match toks with
  | a :: b :: _ =>
    match tokToInt a, tokToInt b with
    | some x, some y => some (x, y)
    | _, _ => none
  | _ => none

/-- Exactly n int reads, failing where the C++ extraction would. -/
def readNIntsTok : Nat → List String → Option (List Int × List String)
  | 0, ts => some ([], ts)
  | _ + 1, [] => none
  | n + 1, t :: ts =>
    match tokToInt t with
    | none => none
    | some v =>
      match readNIntsTok n ts with
      | none => none
      | some (vs, rest) => some (v :: vs, rest)

/-- normalize_gate_token: uppercase, INV is an alias of NOT. -/
def normalize_gate_token (token : String) : String :=
  let u : String := ⟨token.data.map Char.toUpper⟩
  if u = "INV" then "NOT" else u

/-- The body of the gate-line loop of parse_bristol_stream. -/
def parseGateLine (num_wires : Int) (line : String) : Except String Gate :=
  let toks := tokensOf line
  match read2Ints toks with
  | none => Except.error (r"Malformed Bristol gate line: missing arity")
  | some (input_count, output_count) =>
    if input_count ≤ 0 ∨ output_count ≤ 0 then
      Except.error (r"Bristol gate must have positive input/output counts")
    else
      match readNIntsTok input_count.toNat (toks.drop 2) with
      | none => Except.error (r"Malformed Bristol gate line: missing input wire index")
      | some (gate_inputs, rest2) =>
        match readNIntsTok output_count.toNat rest2 with
        | none => Except.error (r"Malformed Bristol gate line: missing output wire index")
        | some (gate_outputs, rest3) =>
          match rest3 with
          | [] => Except.error (r"Malformed Bristol gate line: missing gate type")
          | ttok :: _ =>
            match string_to_gate_type (normalize_gate_token ttok) with
            | none => Except.error (r"Unknown gate type: " ++ normalize_gate_token ttok)
            | some gate_type =>
              if gate_outputs.length ≠ 1 then
                Except.error (r"Only single-output gates are supported in this implementation")
              else
                let out_wire := gate_outputs.getD 0 0
                if out_wire < 0 ∨ out_wire ≥ num_wires then
                  Except.error (r"Gate output wire index out of range in Bristol circuit")
                else if input_count = 1 then
                  let in_wire := gate_inputs.getD 0 0
                  if in_wire < 0 ∨ in_wire ≥ num_wires then
                    Except.error (r"Gate input wire index out of range in Bristol circuit")
                  else Except.ok ⟨out_wire, in_wire, -1, gate_type⟩
                else if input_count = 2 then
                  let in_wire1 := gate_inputs.getD 0 0
                  let in_wire2 := gate_inputs.getD 1 0
                  if in_wire1 < 0 ∨ in_wire1 ≥ num_wires ∨
                      in_wire2 < 0 ∨ in_wire2 ≥ num_wires then
                    Except.error (r"Gate input wire index out of range in Bristol circuit")
                  else Except.ok ⟨out_wire, in_wire1, in_wire2, gate_type⟩
                else
                  Except.error (r"Only unary or binary gates are supported in this implementation")

/-- The gate-line loop of parse_bristol_stream. -/
def parseGateLines (num_wires : Int) : Nat → List String → Except String (List Gate × List String)
  | 0, lines => Except.ok ([], lines)
  | n + 1, lines =>
    match nextContentLine lines with
    | none => Except.error (r"Unexpected end of file while reading Bristol gates")
    | some (line, rest) => do
      let g ← parseGateLine num_wires line
      let s ← parseGateLines num_wires n rest
      pure (g :: s.1, s.2)

/-- std::accumulate over an int list. -/
def sumInts (l : List Int) : Int := l.foldl (fun a b => a + b) 0

/-- The input-wire range check of check_wire_consistency. -/
def cwcInputsOk (c : Circuit) : Bool :=
  c.input_wires.all (fun w => decide (0 ≤ w) && decide (w < c.num_wires))

/-- The gate loop of check_wire_consistency: inputs must be in range
and already defined; the output wire must be in range and is then
added to the defined set (with no check that it was not already
defined). -/
def cwcGatesLoop (c : Circuit) : List Gate → List Int → Bool
  | [], _ => true
  | g :: gs, defined =>
    if g.input_wire1 < 0 ∨ g.input_wire1 ≥ c.num_wires then false
    else if ¬ (g.input_wire1 ∈ defined) then false
    else if g.input_wire2 ≠ -1 ∧ (g.input_wire2 < 0 ∨ g.input_wire2 ≥ c.num_wires) then false
    else if g.input_wire2 ≠ -1 ∧ ¬ (g.input_wire2 ∈ defined) then false
    else if g.output_wire < 0 ∨ g.output_wire ≥ c.num_wires then false
    else cwcGatesLoop c gs (g.output_wire :: defined)

/-- GarbledCircuitManager::check_wire_consistency. -/
def check_wire_consistency (c : Circuit) : Bool :=
  cwcInputsOk c && cwcGatesLoop c c.gates c.input_wires

/-- GarbledCircuitManager::check_gate_validity. -/
def check_gate_validity (c : Circuit) : Bool :=
  c.gates.all (fun g =>
    !(decide (g.type = GateType.INPUT) || decide (g.type = GateType.OUTPUT)) &&
    (if g.type = GateType.NOT then decide (g.input_wire2 = -1)
     else decide (g.input_wire2 ≠ -1)))

/-- GarbledCircuitManager::validate_circuit. -/
def validate_circuit (c : Circuit) : Bool :=
  if c.num_inputs ≤ 0 ∨ c.num_outputs ≤ 0 ∨ c.num_gates ≤ 0 then false
  else if (c.gates.length : Int) ≠ c.num_gates then false
  else if (c.input_wires.length : Int) ≠ c.num_inputs then false
  else if ¬ c.input_partition.isEmpty ∧ sumInts c.input_partition ≠ c.num_inputs then false
  else if ¬ c.output_partition.isEmpty ∧ sumInts c.output_partition ≠ c.num_outputs then false
  else check_wire_consistency c && check_gate_validity c

/-- The final phase of parse_bristol_stream: build the Circuit record
from the parsed pieces and run validate_circuit on it, throwing when
validation fails. -/
def assembleParsedCircuit (num_wires : Int) (input_counts output_counts : List Int)
    (gates : List Gate) : Except String Circuit :=
  if validate_circuit
      { num_inputs := sumInts input_counts, num_outputs := sumInts output_counts,
        num_gates := (gates.length : Int), num_wires := num_wires,
        gates := gates,
        input_wires := (List.range (sumInts input_counts).toNat).map (fun i => (i : Int)),
        output_wires :=
          (List.range (sumInts output_counts).toNat).map
            (fun i => num_wires - sumInts output_counts + (i : Int)),
        input_partition := input_counts,
        output_partition := output_counts } then
    Except.ok
      { num_inputs := sumInts input_counts, num_outputs := sumInts output_counts,
        num_gates := (gates.length : Int), num_wires := num_wires,
        gates := gates,
        input_wires := (List.range (sumInts input_counts).toNat).map (fun i => (i : Int)),
        output_wires :=
          (List.range (sumInts output_counts).toNat).map
            (fun i => num_wires - sumInts output_counts + (i : Int)),
        input_partition := input_counts,
        output_partition := output_counts }
  else Except.error (r"Parsed Bristol circuit failed validation")

/-- The gate-reading phase of parse_bristol_stream. -/
def parseGatesPhase (num_gates num_wires : Int) (input_counts output_counts : List Int)
    (rest2 : List String) : Except String Circuit :=
  match parseGateLines num_wires num_gates.toNat rest2 with
  | Except.error e => Except.error e
  | Except.ok (gates, _) => assembleParsedCircuit num_wires input_counts output_counts gates

/-- The outputs-line phase of parse_bristol_stream. -/
def parseOutputsPhase (num_gates num_wires : Int) (input_counts : List Int)
    (rest1 : List String) : Except String Circuit :=
  match nextContentLine rest1 with
  | none => Except.error (r"Bristol circuit missing outputs line")
  | some (outputs_line, rest2) =>
    if (readIntsGreedy (tokensOf outputs_line)).any (fun v => v < 0) then
      Except.error (r"Bristol outputs line contains negative count")
    else if (readIntsGreedy (tokensOf outputs_line)).isEmpty then
      Except.error (r"Bristol outputs line must contain at least one integer")
    else if sumInts (readIntsGreedy (tokensOf outputs_line)) ≤ 0 then
      Except.error (r"Bristol circuit must declare at least one output")
    else if sumInts (readIntsGreedy (tokensOf outputs_line)) > num_wires then
      Except.error (r"Total outputs exceed declared wire count in Bristol circuit")
    else
      parseGatesPhase num_gates num_wires input_counts
        (readIntsGreedy (tokensOf outputs_line)) rest2

/-- The inputs-line phase of parse_bristol_stream. -/
def parseInputsPhase (num_gates num_wires : Int) (rest0 : List String) :
    Except String Circuit :=
  match nextContentLine rest0 with
  | none => Except.error (r"Bristol circuit missing inputs line")
  | some (inputs_line, rest1) =>
    if (readIntsGreedy (tokensOf inputs_line)).any (fun v => v < 0) then
      Except.error (r"Bristol inputs line contains negative count")
    else if (readIntsGreedy (tokensOf inputs_line)).isEmpty then
      Except.error (r"Bristol inputs line must contain at least one integer")
    else if sumInts (readIntsGreedy (tokensOf inputs_line)) ≤ 0 then
      Except.error (r"Bristol circuit must declare at least one input")
    else if sumInts (readIntsGreedy (tokensOf inputs_line)) > num_wires then
      Except.error (r"Total inputs exceed declared wire count in Bristol circuit")
    else
      parseOutputsPhase num_gates num_wires
        (readIntsGreedy (tokensOf inputs_line)) rest1

/-- GarbledCircuitManager::parse_bristol_stream over the lines of the
circuit text (header phase; the later phases are the helper defs
above). -/
def parse_bristol_lines (input : List String) : Except String Circuit :=
  match nextContentLine input with
  | none => Except.error (r"Bristol circuit is missing header line")
  | some (header_line, rest0) =>
    match read2Ints (tokensOf header_line) with
    | none => Except.error (r"Invalid Bristol header line: expected gates wires")
    | some (num_gates, num_wires) =>
      if num_gates ≤ 0 ∨ num_wires ≤ 0 then
        Except.error (r"Bristol header must specify positive gate and wire counts")
      else parseInputsPhase num_gates num_wires rest0

/-! ## Concrete instances used by the verification

A toy instantiation of the abstract primitives: the block cipher is
byte-wise XOR with the key (a length-preserving involution on 16-byte
blocks) and the PRF is the XOR of the two keys padded to 32 bytes.
These satisfy exactly the interface contracts the source assumes of
AES and SHA-256 and make the pipeline computable. -/

/-- Byte-wise XOR of two equal-length byte lists. -/
def xorBytes (a b : List Nat) : List Nat :=
  List.zipWith (fun x y => Nat.xor x y) a b

/-- The toy cryptographic model. -/
def toyModel : CryptoModel :=
  ⟨fun key block => xorBytes key block,
   fun key block => xorBytes key block,
   fun k1 k2 _ => xorBytes k1 k2 ++ List.replicate 16 0⟩

/-- A deterministic tape of pairwise distinct 16-byte labels. -/
def toyTape : Nat → WireLabel := fun n => (n + 1) :: List.replicate 15 0

/-- The identity table permutation (one possible outcome of
std::shuffle). -/
def idPerms : Nat → Fin 4 → Fin 4 := fun _ j => j

/-- The one-XOR-gate circuit (w0 XOR w1 into w2). -/
def xorCircuit : Circuit :=
  ⟨2, 1, 1, 3, [⟨2, 0, 1, GateType.XOR⟩], [0, 1], [2], [1, 1], [1]⟩

/-- The one-AND-gate circuit (create_and_gate_circuit). -/
def andCircuit : Circuit :=
  ⟨2, 1, 1, 3, [⟨2, 0, 1, GateType.AND⟩], [0, 1], [2], [1, 1], [1]⟩

/-- The garbled XOR circuit in legacy mode (use_pandp = false) with the
identity shuffle outcome. -/
def legacyXorGC : GarbledCircuit :=
  match garble_circuit false toyModel toyTape idPerms xorCircuit with
  | Except.ok gc => gc
  | Except.error _ => default

/-- The garbled AND circuit with point-and-permute enabled. -/
def pandpAndGC : GarbledCircuit :=
  match garble_circuit true toyModel toyTape idPerms andCircuit with
  | Except.ok gc => gc
  | Except.error _ => default

/-- The point-and-permute label for bit 1 of wire 0 of pandpAndGC. -/
def pA1 : WireLabel := 2 :: List.replicate 14 0 ++ [1]

/-- The point-and-permute label for bit 1 of wire 1 of pandpAndGC. -/
def pB1 : WireLabel := 4 :: List.replicate 14 0 ++ [1]

/-- The point-and-permute label for bit 1 of the output wire 2 of
pandpAndGC. -/
def pO1 : WireLabel := 6 :: List.replicate 14 0 ++ [1]

/-- Two distinct concrete labels for the OT counterexample. -/
def otLabelA : WireLabel := List.replicate 16 1

/-- The second (unchosen for choice = 0) label of the OT
counterexample. -/
def otLabelB : WireLabel := List.replicate 16 2

/-- A concrete garbled circuit exercising the serialization fields:
the AND circuit (num_wires = 3, partitions [1,1] and [1]) with one
garbled gate of four 32-byte rows. -/
def gcSer : GarbledCircuit :=
  ⟨andCircuit, [⟨List.replicate 4 (List.replicate 32 7)⟩], [], []⟩

/-- A Bristol text whose second gate writes output wire 2 which the
first gate already defined. -/
def bristolRedefLines : List String :=
  [r"2 3", r"1 1", r"1", r"2 1 0 1 2 AND", r"2 1 0 1 2 XOR"]

/-- The circuit that bristolRedefLines parses to. -/
def bristolRedefCircuit : Circuit :=
  ⟨2, 1, 2, 3, [⟨2, 0, 1, GateType.AND⟩, ⟨2, 0, 1, GateType.XOR⟩],
   [0, 1], [2], [1, 1], [1]⟩

/-- The gate types Garbler::garble_gate dispatches on (all others fall
to the default case and raise GarblerException). -/
def supportedGarbleTypes : List GateType :=
  [GateType.AND, GateType.OR, GateType.XOR, GateType.NAND, GateType.NOT]

/-- The wires defined before gate i in a circuit: the input wires plus
the output wires of the earlier gates. -/
def definedBefore (c : Circuit) (i : Nat) : List Int :=
  c.input_wires ++ (c.gates.take i).map (fun g => g.output_wire)

/-- A circuit with the fields the legacy serialization does not
transmit reset to their default-constructed values. -/
def stripUntransmitted (c : Circuit) : Circuit :=
  { c with num_wires := 0, input_partition := [], output_partition := [] }

/-! ## Theorems -/

/-- Computation rule for isOk on a success. -/
@[simp] theorem isOk_ok {ε α : Type} (a : α) :
    (Except.ok a : Except ε α).isOk = true := rfl

/-- Computation rule for isOk on an error. -/
@[simp] theorem isOk_error {ε α : Type} (e : ε) :
    (Except.error e : Except ε α).isOk = false := rfl

/-- Computation rule for bind on a success. -/
@[simp] theorem ok_bind {ε α β : Type} (a : α) (f : α → Except ε β) :
    (Except.ok a : Except ε α) >>= f = f a := rfl

/-- Computation rule for bind on an error. -/
@[simp] theorem error_bind {ε α β : Type} (e : ε) (f : α → Except ε β) :
    (Except.error e : Except ε α) >>= f = Except.error e := rfl

/-- Computation rule for pure. -/
@[simp] theorem pure_eq_ok {ε α : Type} (a : α) :
    (pure a : Except ε α) = Except.ok a := rfl

/-- C1: for every well-formed circuit and inputs, garble, then encode,
then evaluate, then decode is claimed to equal the plaintext
evaluation in both modes.  The code violates this in legacy mode:
decrypt_label never verifies the 16-byte padding, so the trial
decryption of Evaluator::evaluate_gate accepts the very first table
row whatever the input labels are.  Concretely, for the one-gate XOR
circuit with inputs x = 1, y = 1 (garbler and evaluator one bit each),
with the identity outcome of the table shuffle, the full pipeline
decodes to [1] while the plaintext evaluation of XOR(1,1) is [0]. -/
theorem C1_legacy_pipeline_mismatch :
    (do
      let gc ← garble_circuit false toyModel toyTape idPerms xorCircuit
      let labs ← encode_inputs gc [true, true] gc.circuit.input_wires
      let outs ← evaluate_circuit false toyModel gc labs
      decode_outputs gc outs : Except String (List Bool)) = Except.ok [true] ∧
    evaluate_plaintext xorCircuit [true, true] = Except.ok [false] := by
  decide

/-- C2: decrypt_label is claimed to fail whenever the recovered 16-byte
padding is not all zero.  The code never inspects the padding: on a
32-byte ciphertext of 9-bytes, under the toy primitives and keys
toyTape 0 and toyTape 2 at gate 0, the recovered second block is not
all zero — is_valid_decryption (the padding check that
crypto_utils.cpp defines but never calls) rejects it — yet
decrypt_label returns the first 16 recovered bytes as a label. -/
theorem C2_decrypt_label_ignores_padding :
    decrypt_label toyModel (List.replicate 32 9) (toyTape 0) (toyTape 2) 0 =
      Except.ok (11 :: List.replicate 15 9) ∧
    is_valid_decryption (aes_decrypt toyModel (List.replicate 32 9)
      ((toyModel.prf (toyTape 0) (toyTape 2) 0).take WIRE_LABEL_SIZE)) = false := by
  decide

/-- C5: with point-and-permute, on the garbled AND circuit the garbler
does place the ciphertext for the label pair (pA1, pB1) at table index
perm_bit(pA1) * 2 + perm_bit(pB1) = 3, and the evaluator's single
decryption of that row returns the correct output label pO1 — but the
row at index 0 also decrypts without error (decrypt_label performs no
padding verification), so the selected row is not the unique row that
decrypts successfully. -/
theorem C5_pandp_selected_row_not_unique :
    (pandpAndGC.garbled_gates.getD 0 default).ciphertexts.getD
        (perm_bit pA1 * 2 + perm_bit pB1) [] = encrypt_label toyModel pO1 pA1 pB1 0 ∧
    evaluate_gate true toyModel (pandpAndGC.garbled_gates.getD 0 default) pA1 pB1 0 =
      Except.ok pO1 ∧
    perm_bit pA1 * 2 + perm_bit pB1 = 3 ∧
    (decrypt_label toyModel
        ((pandpAndGC.garbled_gates.getD 0 default).ciphertexts.getD 0 [])
        pA1 pB1 0).isOk = true := by
  decide

/-- C4 counterexample: garble_gate on a NOR gate does not produce a
garbled table; it raises GarbleError ("Unsupported gate type: NOR"),
although the claim lists NOR among the supported types. -/
theorem C4_counterexample_nor_raises :
    (garble_gate false toyModel toyTape (idPerms 0) []
        ⟨2, 0, 1, GateType.NOR⟩ 0 0).1 =
      Except.error (r"Unsupported gate type: NOR") := by
  decide

/-- C4 (amended): garble_gate produces a four-row garbled table exactly
for the gate types AND, OR, XOR, NAND, NOT, and raises a GarbleError
for every other type — including NOR, which its switch does not
handle. -/
theorem C4_garble_gate_supported_types (use_pandp : Bool) (M : CryptoModel)
    (tape : Nat → WireLabel) (σ : Fin 4 → Fin 4) (wl : LabelMap) (g : Gate)
    (gid ctr : Nat) :
    ((garble_gate use_pandp M tape σ wl g gid ctr).1.isOk = true ↔
      g.type ∈ supportedGarbleTypes) ∧
    (∀ gg, (garble_gate use_pandp M tape σ wl g gid ctr).1 = Except.ok gg →
      gg.ciphertexts.length = 4) := by
  obtain ⟨ow, i1, i2, t⟩ := g
  cases t <;> cases use_pandp <;>
    simp [garble_gate, garble_and_gate, garble_or_gate, garble_xor_gate,
      garble_nand_gate, garble_not_gate, generate_garbled_table, gateFnE,
      gate_function, supportedGarbleTypes, permute_table,
      List.length_set, List.length_finRange]

/-- Witness for C4: a concrete AND gate garbles successfully. -/
theorem C4_witness :
    (garble_gate false toyModel toyTape (idPerms 0) []
        ⟨2, 0, 1, GateType.AND⟩ 0 0).1.isOk = true :=
  (C4_garble_gate_supported_types false toyModel toyTape (idPerms 0) []
    ⟨2, 0, 1, GateType.AND⟩ 0 0).1.mpr (by decide)

/-- C9: receive_message raises the oversized-payload error exactly when
the declared payload size exceeds MAX_MESSAGE_SIZE = 65536, and it
does so before reading any payload byte (the first part holds for
every remainder of the stream, including an empty one); a declared
size of at most 65536 never produces that error. -/
theorem C9_receive_message_size_check (t b1 b2 b3 b4 : Nat) (rest : List Nat) :
    (decode4 b1 b2 b3 b4 > MAX_MESSAGE_SIZE →
      receive_message (t :: b1 :: b2 :: b3 :: b4 :: rest) =
        Except.error (NetErr.tooLarge (decode4 b1 b2 b3 b4))) ∧
    (decode4 b1 b2 b3 b4 ≤ MAX_MESSAGE_SIZE →
      ∀ n, receive_message (t :: b1 :: b2 :: b3 :: b4 :: rest) ≠
        Except.error (NetErr.tooLarge n)) := by
  constructor
  · intro h
    have hpos : decode4 b1 b2 b3 b4 > 0 := lt_of_le_of_lt (Nat.zero_le _) h
    simp only [receive_message]
    rw [if_pos hpos, if_pos h]
  · intro h n hn
    simp only [receive_message] at hn
    split_ifs at hn with h1 h2 h3 <;> simp_all
    omega

/-- Witness for C9: a declared size of 65537 is rejected with the
oversized-payload error on a stream holding no payload at all, and a
declared size of 0 is not. -/
theorem C9_witness :
    receive_message [0, 0, 1, 0, 1] = Except.error (NetErr.tooLarge 65537) ∧
    receive_message [7, 0, 0, 0, 0] ≠ Except.error (NetErr.tooLarge 0) := by
  constructor
  · exact (C9_receive_message_size_check 0 0 1 0 1 []).1 (by decide)
  · exact (C9_receive_message_size_check 7 0 0 0 0 []).2 (by decide) 0

/-- The decode loop succeeds exactly when every consulted output wire
(the first min(labels, wires) of them) has a stored decoding label. -/
theorem decodeLoop_ok_iff (m : List (Int × WireLabel)) :
    ∀ (ls : List WireLabel) (ws : List Int),
      ((decodeLoop m ls ws).isOk = true ↔
        ∀ w ∈ ws.take ls.length, (lookupMap m w).isSome = true) := by
  intro ls
  induction ls with
  | nil => intro ws; simp [decodeLoop]
  | cons l ls ih =>
    intro ws
    cases ws with
    | nil => simp [decodeLoop]
    | cons w ws =>
      simp only [decodeLoop, List.length_cons, List.take_succ_cons, List.mem_cons]
      cases hl : lookupMap m w with
      | none => simp [hl]
      | some l0 =>
        cases hrec : decodeLoop m ls ws with
        | error e =>
          have hiff := ih ws
          rw [hrec] at hiff
          simp only [isOk_error, Bool.false_eq_true, false_iff] at hiff
          simp [hl, hrec, hiff]
        | ok bits =>
          have hiff := ih ws
          rw [hrec] at hiff
          simp only [isOk_ok, true_iff] at hiff
          simp only [hl, hrec]
          simp
          exact ⟨by simp [hl], hiff⟩

/-- The decode loop returns one bit per consulted output wire. -/
theorem decodeLoop_length (m : List (Int × WireLabel)) :
    ∀ (ls : List WireLabel) (ws : List Int) (bits : List Bool),
      decodeLoop m ls ws = Except.ok bits →
      bits.length = min ls.length ws.length := by
  intro ls
  induction ls with
  | nil =>
    intro ws bits h
    simp only [decodeLoop] at h
    cases h
    simp
  | cons l ls ih =>
    intro ws bits h
    cases ws with
    | nil =>
      simp only [decodeLoop] at h
      cases h
      simp
    | cons w ws =>
      simp only [decodeLoop] at h
      cases hl : lookupMap m w with
      | none => rw [hl] at h; cases h
      | some l0 =>
        rw [hl] at h
        cases hrec : decodeLoop m ls ws with
        | error e => rw [hrec] at h; cases h
        | ok rest =>
          rw [hrec] at h
          cases h
          have := ih ws rest hrec
          simp [this, Nat.succ_min_succ]

/-- C10: decode_outputs never fails on a length mismatch: it succeeds
exactly when every one of the first min(labels, output wires) output
wires has a stored decoding label, and on success it returns exactly
min(labels, output wires) bits — extra labels are ignored and missing
ones silently shorten the result. -/
theorem C10_decode_outputs_spec (gc : GarbledCircuit) (labels : List WireLabel) :
    ((decode_outputs gc labels).isOk = true ↔
      ∀ w ∈ gc.circuit.output_wires.take labels.length,
        (lookupMap gc.output_mapping w).isSome = true) ∧
    (∀ bits, decode_outputs gc labels = Except.ok bits →
      bits.length = min labels.length gc.circuit.output_wires.length) := by
  constructor
  · exact decodeLoop_ok_iff gc.output_mapping labels gc.circuit.output_wires
  · intro bits h
    exact decodeLoop_length gc.output_mapping labels gc.circuit.output_wires bits h

/-- Witness for C10: decoding two labels against a circuit with one
output wire succeeds and yields exactly one bit. -/
theorem C10_witness :
    (decode_outputs pandpAndGC [pO1, pO1]).isOk = true ∧
    ∀ bits, decode_outputs pandpAndGC [pO1, pO1] = Except.ok bits →
      bits.length = 1 := by
  constructor
  · exact (C10_decode_outputs_spec pandpAndGC [pO1, pO1]).1.mpr (by decide)
  · intro bits h
    exact (C10_decode_outputs_spec pandpAndGC [pO1, pO1]).2 bits h

/-- Receiving a wire label from a stream headed by a full label yields
that label and the remainder. -/
theorem receive_wire_label_append (l rest : List Nat) (h : l.length = WIRE_LABEL_SIZE) :
    receive_wire_label (l ++ rest) = Except.ok (l, rest) := by
  have hlen : ¬ (l ++ rest).length < WIRE_LABEL_SIZE := by
    rw [List.length_append, h]; omega
  unfold receive_wire_label
  rw [if_neg hlen, List.take_left' h, List.drop_left' h]

/-- One simplified-OT reception from a stream headed by the two sent
labels yields the chosen label; the other label was read as well. -/
theorem receive_wire_label_ot_append (c : Bool) (l0 l1 rest : List Nat)
    (h0 : l0.length = WIRE_LABEL_SIZE) (h1 : l1.length = WIRE_LABEL_SIZE) :
    receive_wire_label_ot c (l0 ++ (l1 ++ rest)) =
      Except.ok (if c then l1 else l0, rest) := by
  unfold receive_wire_label_ot
  rw [receive_wire_label_append l0 (l1 ++ rest) h0]
  simp [receive_wire_label_append l1 rest h1]

/-- Running receive_ot on exactly the bytes send_ot wrote returns the
locally chosen label of every pair. -/
theorem receive_ot_send_ot (pairs : List (WireLabel × WireLabel)) :
    ∀ (choices : List Bool), choices.length = pairs.length →
    (∀ p ∈ pairs, p.1.length = WIRE_LABEL_SIZE ∧ p.2.length = WIRE_LABEL_SIZE) →
    receive_ot choices (send_ot pairs) =
      Except.ok (List.zipWith (fun c p => if c then p.2 else p.1) choices pairs, []) := by
  induction pairs with
  | nil =>
    intro choices hlen _
    cases choices with
    | nil => simp [receive_ot, send_ot]
    | cons c cs => simp at hlen
  | cons p ps ih =>
    intro choices hlen hwf
    cases choices with
    | nil => simp at hlen
    | cons c cs =>
      have hp := hwf p (List.mem_cons_self p ps)
      have hwf2 : ∀ q ∈ ps, q.1.length = WIRE_LABEL_SIZE ∧ q.2.length = WIRE_LABEL_SIZE :=
        fun q hq => hwf q (List.mem_cons_of_mem p hq)
      have hlen2 : cs.length = ps.length := by simpa using hlen
      have hstream : send_ot (p :: ps) = p.1 ++ (p.2 ++ send_ot ps) := by
        simp [send_ot, send_wire_label_ot, send_wire_label]
      simp only [receive_ot, hstream]
      rw [receive_wire_label_ot_append c p.1 p.2 (send_ot ps) hp.1 hp.2]
      simp only [ok_bind]
      rw [ih cs hlen2 hwf2]
      simp

/-- C3 (amended): the OT subprotocol the two parties actually run
(OTHandler::send_ot delegating to SimpleOT) writes both labels of
every pair to the transport, label0 then label1 — the unchosen label
is exposed on the wire — and the Evaluator's receive_ot reads both and
merely keeps pairs[i][choices[i]] by local selection. -/
theorem C3_send_ot_transmits_both (pairs : List (WireLabel × WireLabel))
    (choices : List Bool) (hlen : choices.length = pairs.length)
    (hwf : ∀ p ∈ pairs, p.1.length = WIRE_LABEL_SIZE ∧ p.2.length = WIRE_LABEL_SIZE) :
    send_ot pairs = (pairs.map (fun p => p.1 ++ p.2)).flatten ∧
    receive_ot choices (send_ot pairs) =
      Except.ok (List.zipWith (fun c p => if c then p.2 else p.1) choices pairs, []) :=
  ⟨rfl, receive_ot_send_ot pairs choices hlen hwf⟩

/-- C3 counterexample: for the single pair (otLabelA, otLabelB) with
choice 0 (so otLabelB is the unchosen label), the transport bytes
written by send_ot are exactly otLabelA followed by otLabelB — the
unchosen label appears on the wire, and reading the same bytes with
the flipped choice recovers it. -/
theorem C3_counterexample_unchosen_on_wire :
    send_ot [(otLabelA, otLabelB)] = otLabelA ++ otLabelB ∧
    receive_ot [false] (send_ot [(otLabelA, otLabelB)]) = Except.ok ([otLabelA], []) ∧
    receive_ot [true] (send_ot [(otLabelA, otLabelB)]) = Except.ok ([otLabelB], []) := by
  decide

/-- Witness for C3: two pairs, choices 0 then 1. -/
theorem C3_witness :
    receive_ot [false, true] (send_ot [(otLabelA, otLabelB), (otLabelB, otLabelA)]) =
      Except.ok ([otLabelA, otLabelA], []) :=
  (C3_send_ot_transmits_both [(otLabelA, otLabelB), (otLabelB, otLabelA)]
    [false, true] (by decide) (by decide)).2

/-- Lookup after a map assignment. -/
theorem lookup_setMap {α : Type} (m : List (Int × α)) (k w : Int) (v : α) :
    lookupMap (setMap m k v) w = if k = w then some v else lookupMap m w := by
  induction m with
  | nil => simp only [setMap, lookupMap]
  | cons kv rest ih =>
    obtain ⟨k2, v2⟩ := kv
    by_cases hk : k2 = k
    · subst hk
      simp only [setMap, if_pos rfl, lookupMap]
      by_cases hw : k2 = w
      · simp [hw]
      · simp [hw]
    · simp only [setMap, if_neg hk, lookupMap]
      by_cases hw : k2 = w
      · have hkw : k ≠ w := fun h => hk (hw.trans h.symm)
        simp [hw, hkw]
      · simp [hw, ih]

/-- The last byte of a 16-byte label after the point-and-permute
masking. -/
theorem getD_set_last (l : WireLabel) (x : Nat) (h : l.length = WIRE_LABEL_SIZE) :
    (l.set (WIRE_LABEL_SIZE - 1) x).getD (WIRE_LABEL_SIZE - 1) 0 = x := by
  have hlt : WIRE_LABEL_SIZE - 1 < l.length := by rw [h]; decide
  rw [List.getD_eq_getElem?_getD, List.getElem?_set_self hlt]
  rfl

/-- Clearing the low bit with AND 0xFE makes the permutation bit 0. -/
theorem land_fe_perm (x : Nat) : (x &&& 0xFE) &&& 0x01 = 0 := by
  have h1 : (0xFE &&& 0x01 : Nat) = 0 := by decide
  rw [Nat.and_assoc, h1, Nat.and_zero]

/-- Setting the low bit with OR 0x01 makes the permutation bit 1. -/
theorem lor_one_perm (x : Nat) : (x ||| 0x01) &&& 0x01 = 1 := by
  rw [Nat.and_distrib_right, Nat.and_one_is_mod]
  rcases Nat.mod_two_eq_zero_or_one x with h | h <;> rw [h] <;> rfl

/-- The pair produced by the point-and-permute masking satisfies the
permutation-bit discipline. -/
theorem maskPandpPair_perm (l0 l1 : WireLabel)
    (h0 : l0.length = WIRE_LABEL_SIZE) (h1 : l1.length = WIRE_LABEL_SIZE) :
    perm_bit (maskPandpPair true l0 l1).1 = 0 ∧
    perm_bit (maskPandpPair true l0 l1).2 = 1 := by
  have e : maskPandpPair true l0 l1 =
      (l0.set (WIRE_LABEL_SIZE - 1) (l0.getD (WIRE_LABEL_SIZE - 1) 0 &&& 0xFE),
       l1.set (WIRE_LABEL_SIZE - 1) (l1.getD (WIRE_LABEL_SIZE - 1) 0 ||| 0x01)) := rfl
  rw [e]
  unfold perm_bit
  rw [getD_set_last l0 _ h0, getD_set_last l1 _ h1]
  exact ⟨land_fe_perm _, lor_one_perm _⟩

/-- The input-wire labeling loop preserves the permutation-bit
discipline of the label table. -/
theorem genInputWireLabels_perm (tape : Nat → WireLabel)
    (htape : ∀ n, (tape n).length = WIRE_LABEL_SIZE) :
    ∀ (ws : List Int) (m : LabelMap) (ctr : Nat),
      (∀ w p, lookupMap m w = some p → perm_bit p.1 = 0 ∧ perm_bit p.2 = 1) →
      ∀ w p, lookupMap (genInputWireLabels true tape ws m ctr).1 w = some p →
        perm_bit p.1 = 0 ∧ perm_bit p.2 = 1 := by
  intro ws
  induction ws with
  | nil => intro m ctr hm; simpa [genInputWireLabels] using hm
  | cons w0 ws ih =>
    intro m ctr hm
    simp only [genInputWireLabels]
    refine ih _ _ ?_
    intro w' p' h'
    rw [lookup_setMap] at h'
    by_cases hww : w0 = w'
    · rw [if_pos hww] at h'
      cases h'
      exact maskPandpPair_perm (tape ctr) (tape (ctr + 1)) (htape ctr) (htape (ctr + 1))
    · rw [if_neg hww] at h'
      exact hm w' p' h'

/-- The gate-output labeling loop preserves the permutation-bit
discipline of the label table. -/
theorem genGateWireLabels_perm (tape : Nat → WireLabel)
    (htape : ∀ n, (tape n).length = WIRE_LABEL_SIZE) :
    ∀ (gs : List Gate) (m : LabelMap) (ctr : Nat),
      (∀ w p, lookupMap m w = some p → perm_bit p.1 = 0 ∧ perm_bit p.2 = 1) →
      ∀ w p, lookupMap (genGateWireLabels true tape gs m ctr).1 w = some p →
        perm_bit p.1 = 0 ∧ perm_bit p.2 = 1 := by
  intro gs
  induction gs with
  | nil => intro m ctr hm; simpa [genGateWireLabels] using hm
  | cons g gs ih =>
    intro m ctr hm
    cases hfind : lookupMap m g.output_wire with
    | some p0 =>
      simp only [genGateWireLabels, hfind]
      exact ih m ctr hm
    | none =>
      simp only [genGateWireLabels, hfind]
      refine ih _ _ ?_
      intro w' p' h'
      rw [lookup_setMap] at h'
      by_cases hww : g.output_wire = w'
      · rw [if_pos hww] at h'
        cases h'
        exact maskPandpPair_perm (tape ctr) (tape (ctr + 1)) (htape ctr) (htape (ctr + 1))
      · rw [if_neg hww] at h'
        exact hm w' p' h'

/-- The label table a successful garble_circuit run stores in the
garbled circuit is the one generate_wire_labels produced. -/
theorem garble_circuit_input_labels (use_pandp : Bool) (M : CryptoModel)
    (tape : Nat → WireLabel) (perms : Nat → Fin 4 → Fin 4) (c : Circuit)
    (gc : GarbledCircuit) (h : garble_circuit use_pandp M tape perms c = Except.ok gc) :
    gc.input_labels = (generate_wire_labels use_pandp tape c 0).1 := by
  simp only [garble_circuit] at h
  cases hg : garbleGatesLoop use_pandp M tape perms
      (generate_wire_labels use_pandp tape c 0).1 c.gates 0
      (generate_wire_labels use_pandp tape c 0).2 with
  | error e => rw [hg] at h; cases h
  | ok ggs =>
    rw [hg] at h
    simp only [ok_bind, pure_eq_ok, Except.ok.injEq] at h
    rw [← h]

/-- C6: with point-and-permute enabled, after a successful
garble_circuit run (whose label table is exactly the one
generate_wire_labels built, unchanged by the subsequent garbling
steps), every wire pair in the stored label table has
perm_bit(label0) = 0 and perm_bit(label1) = 1, provided the random
tape yields 16-byte labels as RAND_bytes does. -/
theorem C6_pandp_permutation_bit_discipline (M : CryptoModel) (tape : Nat → WireLabel)
    (perms : Nat → Fin 4 → Fin 4) (c : Circuit) (gc : GarbledCircuit)
    (htape : ∀ n, (tape n).length = WIRE_LABEL_SIZE)
    (hgc : garble_circuit true M tape perms c = Except.ok gc) :
    ∀ w l0 l1, lookupMap gc.input_labels w = some (l0, l1) →
      perm_bit l0 = 0 ∧ perm_bit l1 = 1 := by
  intro w l0 l1 hlook
  rw [garble_circuit_input_labels true M tape perms c gc hgc] at hlook
  unfold generate_wire_labels at hlook
  exact genGateWireLabels_perm tape htape c.gates _ _
    (genInputWireLabels_perm tape htape c.input_wires [] 0
      (fun w' p' h' => by cases h'))
    w (l0, l1) hlook

/-- Witness for C6: the stored pair of input wire 0 of the garbled
point-and-permute AND circuit. -/
theorem C6_witness :
    perm_bit ((1 : Nat) :: List.replicate 15 0) = 0 ∧ perm_bit pA1 = 1 :=
  C6_pandp_permutation_bit_discipline toyModel toyTape idPerms andCircuit pandpAndGC
    (fun _ => rfl) (by decide) 0 ((1 : Nat) :: List.replicate 15 0) pA1 (by decide)

/-- The assembly phase only returns circuits that pass validation. -/
theorem assembleParsedCircuit_validate (nw : Int) (ic oc : List Int)
    (gs : List Gate) (c : Circuit)
    (h : assembleParsedCircuit nw ic oc gs = Except.ok c) :
    validate_circuit c = true := by
  unfold assembleParsedCircuit at h
  split at h
  · rename_i hv
    cases h
    exact hv
  · cases h

/-- The gate phase only returns circuits that pass validation. -/
theorem parseGatesPhase_validate (ng nw : Int) (ic oc : List Int)
    (rest : List String) (c : Circuit)
    (h : parseGatesPhase ng nw ic oc rest = Except.ok c) :
    validate_circuit c = true := by
  unfold parseGatesPhase at h
  split at h
  · cases h
  · exact assembleParsedCircuit_validate _ _ _ _ _ h

/-- The outputs phase only returns circuits that pass validation. -/
theorem parseOutputsPhase_validate (ng nw : Int) (ic : List Int)
    (rest : List String) (c : Circuit)
    (h : parseOutputsPhase ng nw ic rest = Except.ok c) :
    validate_circuit c = true := by
  unfold parseOutputsPhase at h
  split at h
  · cases h
  · split_ifs at h
    exact parseGatesPhase_validate _ _ _ _ _ _ h

/-- The inputs phase only returns circuits that pass validation. -/
theorem parseInputsPhase_validate (ng nw : Int) (rest : List String) (c : Circuit)
    (h : parseInputsPhase ng nw rest = Except.ok c) :
    validate_circuit c = true := by
  unfold parseInputsPhase at h
  split at h
  · cases h
  · split_ifs at h
    exact parseOutputsPhase_validate _ _ _ _ _ h

/-- A circuit returned by the parser passed validate_circuit. -/
theorem parse_ok_validate (lines : List String) (c : Circuit)
    (h : parse_bristol_lines lines = Except.ok c) : validate_circuit c = true := by
  unfold parse_bristol_lines at h
  split at h
  · cases h
  · split at h
    · cases h
    · split_ifs at h
      exact parseInputsPhase_validate _ _ _ _ h

/-- A validated circuit passed check_wire_consistency. -/
theorem validate_cwc (c : Circuit) (h : validate_circuit c = true) :
    check_wire_consistency c = true := by
  unfold validate_circuit at h
  repeat' split at h
  all_goals (try cases h)
  exact (Bool.and_eq_true _ _ ▸ h).1

/-- Membership is stable under moving the head of the first list of an
append to the head of the second. -/
theorem mem_cons_append_comm {x a : Int} {d l : List Int} :
    x ∈ (a :: d) ++ l ↔ x ∈ d ++ (a :: l) := by
  simp only [List.cons_append, List.mem_cons, List.mem_append]
  tauto

/-- What a successful check_wire_consistency gate loop guarantees: at
every position, the gate inputs lie in the starting set extended by
the output wires of the gates already passed. -/
theorem cwcGatesLoop_defined (c : Circuit) :
    ∀ (gs : List Gate) (defined : List Int),
      cwcGatesLoop c gs defined = true →
      ∀ i, i < gs.length →
        ((gs.getD i default).input_wire1 ∈
          defined ++ (gs.take i).map (fun g => g.output_wire)) ∧
        ((gs.getD i default).input_wire2 ≠ -1 →
          (gs.getD i default).input_wire2 ∈
            defined ++ (gs.take i).map (fun g => g.output_wire)) := by
  intro gs
  induction gs with
  | nil => intro defined h i hi; simp at hi
  | cons g gs ih =>
    intro defined h i hi
    simp only [cwcGatesLoop] at h
    by_cases h1 : g.input_wire1 < 0 ∨ g.input_wire1 ≥ c.num_wires
    · rw [if_pos h1] at h; cases h
    rw [if_neg h1] at h
    by_cases h2 : ¬ g.input_wire1 ∈ defined
    · rw [if_pos h2] at h; cases h
    rw [if_neg h2] at h
    push_neg at h2
    by_cases h3 : g.input_wire2 ≠ -1 ∧ (g.input_wire2 < 0 ∨ g.input_wire2 ≥ c.num_wires)
    · rw [if_pos h3] at h; cases h
    rw [if_neg h3] at h
    by_cases h4 : g.input_wire2 ≠ -1 ∧ ¬ g.input_wire2 ∈ defined
    · rw [if_pos h4] at h; cases h
    rw [if_neg h4] at h
    by_cases h5 : g.output_wire < 0 ∨ g.output_wire ≥ c.num_wires
    · rw [if_pos h5] at h; cases h
    rw [if_neg h5] at h
    have h4b : g.input_wire2 ≠ -1 → g.input_wire2 ∈ defined := by
      intro hne
      by_contra hmem
      exact h4 ⟨hne, hmem⟩
    cases i with
    | zero =>
      refine ⟨?_, fun hne => ?_⟩
      · simpa using h2
      · simp only [List.getD_cons_zero] at hne
        simpa using h4b hne
    | succ i =>
      have hlen : i < gs.length := by simpa using hi
      have hrec := ih (g.output_wire :: defined) h i hlen
      constructor
      · simp only [List.take_succ_cons, List.map_cons, List.getD_cons_succ]
        exact mem_cons_append_comm.mp hrec.1
      · intro hne
        simp only [List.getD_cons_succ] at hne
        simp only [List.take_succ_cons, List.map_cons, List.getD_cons_succ]
        exact mem_cons_append_comm.mp (hrec.2 hne)

/-- C8 (amended): any circuit text the Bristol parser accepts has
every gate input defined at its position (an input wire or an earlier
gate's output) — so a not-yet-defined input is rejected — but the
parser does not reject a gate whose output wire is already defined:
check_wire_consistency only ever inserts output wires into the defined
set, never checks their absence (see the counterexample). -/
theorem C8_parser_inputs_defined (lines : List String) (c : Circuit)
    (h : parse_bristol_lines lines = Except.ok c) :
    ∀ i, i < c.gates.length →
      ((c.gates.getD i default).input_wire1 ∈ definedBefore c i ∧
       ((c.gates.getD i default).input_wire2 ≠ -1 →
         (c.gates.getD i default).input_wire2 ∈ definedBefore c i)) := by
  have hv := parse_ok_validate lines c h
  have hcwc := validate_cwc c hv
  have hloop : cwcGatesLoop c c.gates c.input_wires = true := by
    unfold check_wire_consistency at hcwc
    exact (Bool.and_eq_true _ _ ▸ hcwc).2
  intro i hi
  have hres := cwcGatesLoop_defined c c.gates c.input_wires hloop i hi
  simpa [definedBefore] using hres

/-- C8 counterexample: bristolRedefLines contains a second gate whose
output wire 2 is already defined (it is the first gate's output), yet
the parser accepts the text instead of raising a ParseError. -/
theorem C8_counterexample_redefined_output_accepted :
    parse_bristol_lines bristolRedefLines = Except.ok bristolRedefCircuit := by
  decide

/-- Witness for C8: gate 1 of the accepted circuit reads wires 0 and
1, both defined before it. -/
theorem C8_witness :
    (bristolRedefCircuit.gates.getD 1 default).input_wire1 ∈
      definedBefore bristolRedefCircuit 1 ∧
    (bristolRedefCircuit.gates.getD 1 default).input_wire2 ∈
      definedBefore bristolRedefCircuit 1 := by
  have h := C8_parser_inputs_defined bristolRedefLines bristolRedefCircuit
    (by decide) 1 (by decide)
  exact ⟨h.1, h.2 (by decide)⟩

/-- Bitwise or of a shifted value and a small value is their sum. -/
theorem or_eq_add_pow (i a b : Nat) (h : b < 2 ^ i) : a * 2 ^ i ||| b = a * 2 ^ i + b := by
  rw [Nat.mul_comm]
  exact (Nat.mul_add_lt_is_or h a).symm

/-- The deserializer's byte recombination as plain arithmetic. -/
theorem decode4_eq (b0 b1 b2 b3 : Nat) (h1 : b1 < 256) (h2 : b2 < 256) (h3 : b3 < 256) :
    decode4 b0 b1 b2 b3 = ((b0 * 256 + b1) * 256 + b2) * 256 + b3 := by
  unfold decode4
  have e8 : (2 : Nat) ^ 8 = 256 := by norm_num
  have e16 : (2 : Nat) ^ 16 = 65536 := by norm_num
  have e24 : (2 : Nat) ^ 24 = 16777216 := by norm_num
  have h3b : b3 < 2 ^ 8 := by rw [e8]; omega
  have hb : b2 * 2 ^ 8 + b3 < 2 ^ 16 := by rw [e8, e16]; omega
  have hc : b1 * 2 ^ 16 + (b2 * 2 ^ 8 + b3) < 2 ^ 24 := by rw [e8, e16, e24]; omega
  rw [Nat.or_assoc, Nat.or_assoc, Nat.shiftLeft_eq, Nat.shiftLeft_eq, Nat.shiftLeft_eq,
    or_eq_add_pow 8 b2 b3 h3b, or_eq_add_pow 16 b1 _ hb, or_eq_add_pow 24 b0 _ hc,
    e8, e16, e24]
  ring

/-- Masking with 0xFF is reduction mod 256. -/
theorem and_ff_eq_mod (x : Nat) : x &&& 0xFF = x % 256 := by
  have h := Nat.and_pow_two_sub_one_eq_mod x 8
  norm_num at h
  exact h

/-- Recombining the four big-endian bytes of a 32-bit value gives the
value back. -/
theorem decode4_be32 (u : Nat) (h : u < 4294967296) :
    decode4 ((u >>> 24) &&& 0xFF) ((u >>> 16) &&& 0xFF) ((u >>> 8) &&& 0xFF) (u &&& 0xFF) =
      u := by
  have hlt : ∀ x : Nat, x &&& 0xFF < 256 := fun x => by
    rw [and_ff_eq_mod]; exact Nat.mod_lt _ (by norm_num)
  rw [decode4_eq _ _ _ _ (hlt _) (hlt _) (hlt _),
    and_ff_eq_mod, and_ff_eq_mod, and_ff_eq_mod, and_ff_eq_mod,
    Nat.shiftRight_eq_div_pow, Nat.shiftRight_eq_div_pow, Nat.shiftRight_eq_div_pow]
  have e8 : (2 : Nat) ^ 8 = 256 := by norm_num
  have e16 : (2 : Nat) ^ 16 = 65536 := by norm_num
  have e24 : (2 : Nat) ^ 24 = 16777216 := by norm_num
  rw [e8, e16, e24]
  omega

/-- The 32-bit pattern of an int is below 2^32. -/
theorem intToU32_lt (i : Int) : intToU32 i < 4294967296 := by
  unfold intToU32
  omega

/-- Reinterpreting the 32-bit pattern of an in-range int recovers the
int. -/
theorem u32_int_roundtrip (i : Int) (hlo : -2147483648 ≤ i) (hhi : i < 2147483648) :
    u32ToInt (intToU32 i) = i := by
  unfold u32ToInt intToU32
  split <;> omega

/-- The 32-bit pattern of a small natural number is itself. -/
theorem intToU32_ofNat (n : Nat) (h : n < 2147483648) : intToU32 (n : Int) = n := by
  unfold intToU32
  omega

/-- Reading back a serialized list of int values. -/
theorem readU32s_roundtrip (msg : String) :
    ∀ (ws : List Int), (∀ w ∈ ws, -2147483648 ≤ w ∧ w < 2147483648) →
    ∀ rest, readU32s msg ws.length ((ws.map be32ofInt).flatten ++ rest) =
      Except.ok (ws.map intToU32, rest) := by
  intro ws
  induction ws with
  | nil => intro _ rest; simp [readU32s]
  | cons w ws ih =>
    intro hws rest
    simp only [List.map_cons, List.flatten_cons, be32ofInt, be32ofNat,
      List.cons_append, List.nil_append, List.append_assoc, List.length_cons]
    simp only [readU32s]
    rw [ih (fun q hq => hws q (List.mem_cons_of_mem w hq)) rest]
    simp only [ok_bind, pure_eq_ok, Except.ok.injEq]
    rw [decode4_be32 (intToU32 w) (intToU32_lt w)]

/-- Mapping the int reinterpretation over serialized patterns of
in-range ints recovers the original list. -/
theorem map_u32_roundtrip (ws : List Int)
    (h : ∀ w ∈ ws, -2147483648 ≤ w ∧ w < 2147483648) :
    (ws.map intToU32).map u32ToInt = ws := by
  rw [List.map_map]
  conv_rhs => rw [← List.map_id ws]
  exact List.map_congr_left
    (fun a ha => u32_int_roundtrip a (h a ha).1 (h a ha).2)

/-- Gate-type bytes decode back to the gate type. -/
theorem byteToGateType_roundtrip (t : GateType) : byteToGateType (gateTypeToByte t) = t := by
  cases t <;> rfl

/-- Reading back a serialized gate list. -/
theorem readGates_roundtrip :
    ∀ (gs : List Gate),
      (∀ g ∈ gs,
        (-2147483648 ≤ g.input_wire1 ∧ g.input_wire1 < 2147483648) ∧
        (-2147483648 ≤ g.input_wire2 ∧ g.input_wire2 < 2147483648) ∧
        (-2147483648 ≤ g.output_wire ∧ g.output_wire < 2147483648)) →
    ∀ rest, readGates gs.length ((gs.map serGate).flatten ++ rest) =
      Except.ok (gs, rest) := by
  intro gs
  induction gs with
  | nil => intro _ rest; simp [readGates]
  | cons g gs ih =>
    intro hgs rest
    have hg := hgs g (List.mem_cons_self g gs)
    simp only [List.map_cons, List.flatten_cons, serGate, be32ofInt, be32ofNat,
      List.cons_append, List.nil_append, List.append_assoc, List.length_cons]
    simp only [readGates]
    rw [ih (fun q hq => hgs q (List.mem_cons_of_mem g hq)) rest]
    simp only [ok_bind, pure_eq_ok, Except.ok.injEq]
    rw [decode4_be32 (intToU32 g.input_wire1) (intToU32_lt _),
      decode4_be32 (intToU32 g.input_wire2) (intToU32_lt _),
      decode4_be32 (intToU32 g.output_wire) (intToU32_lt _),
      u32_int_roundtrip g.input_wire1 hg.1.1 hg.1.2,
      u32_int_roundtrip g.input_wire2 hg.2.1.1 hg.2.1.2,
      u32_int_roundtrip g.output_wire hg.2.2.1 hg.2.2.2,
      byteToGateType_roundtrip g.type]

/-- One 32-byte ciphertext row is consumed whole. -/
theorem readRows_step (n : Nat) (c rest : List Nat)
    (hc : c.length = WIRE_LABEL_SIZE + 16) :
    readRows (n + 1) (c ++ rest) =
      match readRows n rest with
      | Except.error e => Except.error e
      | Except.ok s => Except.ok (c :: s.1, s.2) := by
  have hlen : ¬ (c ++ rest).length < WIRE_LABEL_SIZE + 16 := by
    rw [List.length_append, hc]; omega
  simp only [readRows, if_neg hlen, List.take_left' hc, List.drop_left' hc]
  cases readRows n rest with
  | error e => rfl
  | ok s => rfl

/-- Reading back the four serialized rows of one garbled gate. -/
theorem readRows_four (c0 c1 c2 c3 rest : List Nat)
    (h0 : c0.length = WIRE_LABEL_SIZE + 16) (h1 : c1.length = WIRE_LABEL_SIZE + 16)
    (h2 : c2.length = WIRE_LABEL_SIZE + 16) (h3 : c3.length = WIRE_LABEL_SIZE + 16) :
    readRows 4 (c0 ++ (c1 ++ (c2 ++ (c3 ++ rest)))) =
      Except.ok ([c0, c1, c2, c3], rest) := by
  rw [readRows_step 3 c0 _ h0, readRows_step 2 c1 _ h1, readRows_step 1 c2 _ h2,
    readRows_step 0 c3 _ h3]
  rfl

/-- A list of length four is a four-element literal. -/
theorem length_four_shape {α : Type} (l : List α) (h : l.length = 4) :
    ∃ a b c d, l = [a, b, c, d] := by
  cases l with
  | nil => simp at h
  | cons a l =>
    cases l with
    | nil => simp at h
    | cons b l =>
      cases l with
      | nil => simp at h
      | cons c l =>
        cases l with
        | nil => simp at h
        | cons d l =>
          cases l with
          | nil => exact ⟨a, b, c, d, rfl⟩
          | cons e l => simp only [List.length_cons] at h; omega

/-- Reading back a serialized garbled-gate list. -/
theorem readGarbledGates_roundtrip :
    ∀ (ggs : List GarbledGate),
      (∀ gg ∈ ggs, gg.ciphertexts.length = 4 ∧
        ∀ ct ∈ gg.ciphertexts, ct.length = WIRE_LABEL_SIZE + 16) →
    ∀ rest,
      readGarbledGates ggs.length
        ((ggs.map (fun gg => gg.ciphertexts.flatten)).flatten ++ rest) =
      Except.ok (ggs, rest) := by
  intro ggs
  induction ggs with
  | nil => intro _ rest; simp [readGarbledGates]
  | cons gg ggs ih =>
    intro hggs rest
    have hgg := hggs gg (List.mem_cons_self gg ggs)
    obtain ⟨cts⟩ := gg
    obtain ⟨c0, c1, c2, c3, rfl⟩ := length_four_shape cts hgg.1
    have hc0 := hgg.2 c0 (by simp)
    have hc1 := hgg.2 c1 (by simp)
    have hc2 := hgg.2 c2 (by simp)
    have hc3 := hgg.2 c3 (by simp)
    simp only [List.map_cons, List.flatten_cons, List.flatten_nil, List.length_cons,
      List.append_assoc, List.append_nil, List.nil_append]
    simp only [readGarbledGates]
    rw [readRows_four c0 c1 c2 c3 _ hc0 hc1 hc2 hc3]
    simp only [ok_bind]
    rw [ih (fun q hq => hggs q (List.mem_cons_of_mem _ hq)) rest]
    simp only [ok_bind, pure_eq_ok]

/-- Reinterpreting a small 32-bit pattern is the numeric cast. -/
theorem u32ToInt_ofNat (n : Nat) (h : n < 2147483648) : u32ToInt n = (n : Int) := by
  unfold u32ToInt
  rw [if_pos h]

/-- C7 (amended): deserializing the bytes serialize_garbled_circuit
produced yields a garbled circuit that agrees with the original in
num_gates, num_inputs, num_outputs, input_wires, output_wires, gates
and all four ciphertext rows of every garbled gate — but num_wires
comes back as 0 and both partitions empty, because the legacy format
does not transmit them (nor the label tables).  The hypotheses state
the invariants the Garbler's output satisfies: counts equal to list
lengths, wires and gate fields in the C++ int range, four 32-byte rows
per gate and one garbled gate per circuit gate. -/
theorem C7_serialization_roundtrip (gc : GarbledCircuit)
    (hg : gc.circuit.num_gates = (gc.circuit.gates.length : Int))
    (hi : gc.circuit.num_inputs = (gc.circuit.input_wires.length : Int))
    (ho : gc.circuit.num_outputs = (gc.circuit.output_wires.length : Int))
    (hglen : gc.circuit.gates.length < 2147483648)
    (hilen : gc.circuit.input_wires.length < 2147483648)
    (holen : gc.circuit.output_wires.length < 2147483648)
    (hiw : ∀ w ∈ gc.circuit.input_wires, -2147483648 ≤ w ∧ w < 2147483648)
    (how : ∀ w ∈ gc.circuit.output_wires, -2147483648 ≤ w ∧ w < 2147483648)
    (hgw : ∀ g ∈ gc.circuit.gates,
      (-2147483648 ≤ g.input_wire1 ∧ g.input_wire1 < 2147483648) ∧
      (-2147483648 ≤ g.input_wire2 ∧ g.input_wire2 < 2147483648) ∧
      (-2147483648 ≤ g.output_wire ∧ g.output_wire < 2147483648))
    (hggn : gc.garbled_gates.length = gc.circuit.gates.length)
    (hggs : ∀ gg ∈ gc.garbled_gates, gg.ciphertexts.length = 4 ∧
      ∀ ct ∈ gg.ciphertexts, ct.length = WIRE_LABEL_SIZE + 16) :
    deserialize_garbled_circuit (serialize_garbled_circuit gc) =
      Except.ok ⟨stripUntransmitted gc.circuit, gc.garbled_gates, [], []⟩ := by
  unfold stripUntransmitted
  have hread := readGarbledGates_roundtrip gc.garbled_gates hggs []
  rw [List.append_nil] at hread
  rw [hggn] at hread
  simp only [serialize_garbled_circuit, be32ofInt, be32ofNat, List.cons_append,
    List.nil_append, List.append_assoc]
  simp only [deserialize_garbled_circuit]
  rw [if_neg (by simp only [List.length_cons]; omega)]
  rw [decode4_be32 (intToU32 gc.circuit.num_gates) (intToU32_lt _),
    decode4_be32 (intToU32 gc.circuit.num_inputs) (intToU32_lt _),
    decode4_be32 (intToU32 gc.circuit.num_outputs) (intToU32_lt _),
    hg, hi, ho, intToU32_ofNat _ hglen, intToU32_ofNat _ hilen, intToU32_ofNat _ holen,
    readU32s_roundtrip _ _ hiw, ok_bind, readU32s_roundtrip _ _ how, ok_bind,
    readGates_roundtrip _ hgw, ok_bind, hread, ok_bind,
    map_u32_roundtrip _ hiw, map_u32_roundtrip _ how,
    u32ToInt_ofNat _ hglen, u32ToInt_ofNat _ hilen, u32ToInt_ofNat _ holen]
  simp

set_option maxRecDepth 10000 in
/-- C7 counterexample: for the concrete garbled circuit gcSer, whose
circuit has num_wires = 3 and partitions [1, 1] and [1], the
deserialized result is not equal to the original: num_wires comes
back as 0 (and the partitions empty), since serialize_garbled_circuit
never writes them. -/
theorem C7_counterexample_num_wires_lost :
    deserialize_garbled_circuit (serialize_garbled_circuit gcSer) ≠ Except.ok gcSer ∧
    gcSer.circuit.num_wires = 3 ∧
    (deserialize_garbled_circuit (serialize_garbled_circuit gcSer)).map
      (fun g => g.circuit.num_wires) = Except.ok 0 := by
  decide

/-- Witness for C7: the round trip on gcSer. -/
theorem C7_witness :
    deserialize_garbled_circuit (serialize_garbled_circuit gcSer) =
      Except.ok ⟨stripUntransmitted gcSer.circuit, gcSer.garbled_gates, [], []⟩ :=
  C7_serialization_roundtrip gcSer (by decide) (by decide) (by decide) (by decide)
    (by decide) (by decide) (by decide) (by decide) (by decide) (by decide) (by decide)

end GC
